import Mathlib

/-!
# libsndfile integration of the OpenSL ES audio player

A shallow embedding of `opensles/libopensles/SndFile.c`:

* `SndFile_Callback` (the decode-and-enqueue step),
* `SndFile_IsSupported` (the format acceptance table),
* `SndFile_checkAudioPlayerSourceSink` (source validation),
* `audioPlayerTransportUpdate` (the transport synchroniser).

Conventions of the embedding.

* Fields of C type `SLuint32`, `SLmillisecond` and `unsigned` are natural numbers
  holding values below `2 ^ 32`; arithmetic that can leave that range is reduced
  explicitly with `toSLuint32`.  C `int` fields are integers.
* Pointers are natural numbers, `NULL` being `0`.  A C string is the list of
  its characters before the terminating NUL, and a possibly null string is an
  `Option`.
* Constants that come from headers (`OpenSLES.h`, `sndfile.h`,
  `sles_allinclusive.h`) are fields of `Consts`; every function takes them as
  its first argument.
* The decoding library and the buffer queue are external: their behaviour is a
  parameter (`Env`), the hidden state of the decoding library is a type
  parameter `D`.
* Every function returns, next to the new state, the list of externally visible
  actions it performed, in program order (`Event`): lock operations, writes to
  the session fields `mWhich` and `mEOF`, library calls and application
  callbacks.
-/

namespace OpenSLES

/-! ## Machine integers and pointers -/

/-- The null pointer. -/
def NULL : Nat := 0

/-- Conversion to `SLuint32`: reduction modulo `2 ^ 32`. -/
def toSLuint32 (n : Nat) : Nat := n % 2 ^ 32

/-- Wrap an integer to the range of a signed 64-bit `long long`. -/
def wrapInt64 (x : Int) : Int := (x + 2 ^ 63) % 2 ^ 64 - 2 ^ 63

/-! ## Header constants -/

/-- The constants `SndFile.c` takes from its headers.  Their values are not
fixed by `SndFile.c`, so they are parameters of the embedding. -/
structure Consts where
  SL_PLAYSTATE_PAUSED : Nat
  SL_PLAYSTATE_PLAYING : Nat
  SL_PLAYEVENT_HEADATNEWPOS : Nat
  SL_TIME_UNKNOWN : Nat
  SL_RESULT_SUCCESS : Nat
  SL_RESULT_PARAMETER_INVALID : Nat
  SL_RESULT_CONTENT_UNSUPPORTED : Nat
  SL_DATALOCATOR_URI : Nat
  SL_DATALOCATOR_BUFFERQUEUE : Nat
  SL_DATAFORMAT_NULL : Nat
  SL_DATAFORMAT_MIME : Nat
  ATTR_TRANSPORT : Nat
  SndFile_BUFSIZE : Nat
  SndFile_NUMBUFS : Nat
  sizeof_short : Nat
  SF_FORMAT_TYPEMASK : Int
  SF_FORMAT_SUBMASK : Int
  SF_FORMAT_WAV : Int
  SF_FORMAT_PCM_U8 : Int
  SF_FORMAT_PCM_16 : Int
  SEEK_SET : Int

/-- The values the constants have in OpenSL ES 1.0.1 (`OpenSLES.h`), in
libsndfile (`sndfile.h`) and in `sles_allinclusive.h`; used for concrete
examples only. -/
def stdConsts : Consts where
  SL_PLAYSTATE_PAUSED := 2
  SL_PLAYSTATE_PLAYING := 3
  SL_PLAYEVENT_HEADATNEWPOS := 4
  SL_TIME_UNKNOWN := 0xFFFFFFFF
  SL_RESULT_SUCCESS := 0
  SL_RESULT_PARAMETER_INVALID := 2
  SL_RESULT_CONTENT_UNSUPPORTED := 9
  SL_DATALOCATOR_URI := 1
  SL_DATALOCATOR_BUFFERQUEUE := 6
  SL_DATAFORMAT_NULL := 0
  SL_DATAFORMAT_MIME := 1
  ATTR_TRANSPORT := 2
  SndFile_BUFSIZE := 512
  SndFile_NUMBUFS := 2
  sizeof_short := 2
  SF_FORMAT_TYPEMASK := 0x0FFF0000
  SF_FORMAT_SUBMASK := 0x0000FFFF
  SF_FORMAT_WAV := 0x010000
  SF_FORMAT_PCM_U8 := 0x0005
  SF_FORMAT_PCM_16 := 0x0002
  SEEK_SET := 0

/-! ## Data model -/

/-- The fields of libsndfile's `SF_INFO` that `SndFile.c` reads. -/
structure SF_INFO where
  samplerate : Int
  channels : Int
  format : Int
deriving DecidableEq

/-- The session record `struct SndFile` (the sample storage `mBuffer` and the
mutex `mMutex` carry no value here; the mutex shows in the events). -/
structure SndFile where
  mPathname : Option (List Char)
  mSNDFILE : Nat
  mWhich : Nat
  mEOF : Bool
  mSfInfo : SF_INFO
deriving DecidableEq

/-- The fields of the play interface `IPlay` used by `SndFile.c`. -/
structure IPlay where
  mState : Nat
  mDuration : Nat
  mPosition : Nat
  mCallback : Nat
  mContext : Nat
  mEventFlags : Nat
  mFramesSinceLastSeek : Nat
  mFramesSincePositionUpdate : Nat
  mLastSeekPosition : Nat
  mFrameUpdatePeriod : Nat
deriving DecidableEq

/-- The field of the seek interface `ISeek` used by `SndFile.c`. -/
structure ISeek where
  mPos : Nat
deriving DecidableEq

/-- The fields of the buffer queue interface used by `SndFile.c`
(`mState_count` is `mState.count`). -/
structure IBufferQueue where
  mNumBuffers : Nat
  mState_count : Nat
deriving DecidableEq

/-- The field of the prefetch status interface used by `SndFile.c`. -/
structure IPrefetchStatus where
  mLevel : Nat
deriving DecidableEq

/-- What `SndFile_checkAudioPlayerSourceSink` reads through
`mDataSource.u.mSource`: the first word behind `pLocator`, the `URI` member of
the locator seen as an `SLDataLocator_URI`, and the first word behind
`pFormat`. -/
structure SLDataSource where
  locatorType : Nat
  URI : Option (List Char)
  formatType : Nat
deriving DecidableEq

/-- The fields of `CAudioPlayer` used by `SndFile.c`. -/
structure CAudioPlayer where
  mDataSource : SLDataSource
  mPlay : IPlay
  mSeek : ISeek
  mBufferQueue : IBufferQueue
  mPrefetchStatus : IPrefetchStatus
  mSampleRateMilliHz : Nat
  mSndFile : SndFile
deriving DecidableEq

/-- The externally visible actions, in the vocabulary of the source.  A sample
buffer is named by its index `i`, standing for the pointer
`&mBuffer[i * SndFile_BUFSIZE]`. -/
inductive Event where
  | object_lock_peek
  | object_unlock_peek
  | object_lock_exclusive
  | object_unlock_exclusive
  | object_unlock_exclusive_attributes (attributes : Nat)
  | pthread_mutex_lock
  | pthread_mutex_unlock
  | write_mWhich (value : Nat)
  | write_mEOF (value : Bool)
  | sf_read_short (sndfile : Nat) (bufIndex : Nat) (items : Nat)
  | sf_seek (sndfile : Nat) (frames : Int) (whence : Int)
  | IBufferQueue_Enqueue (bufIndex : Nat) (size : Nat)
  | IBufferQueue_Clear
  | SL_LOGE (result : Nat)
  | callback (fn : Nat) (context : Nat) (event : Nat)
deriving DecidableEq

/-- The external capabilities: the decoding library, whose hidden state has type
`D`, and the buffer queue.  `sf_read_short sndfile d items` yields the count
returned and the next library state. -/
structure Env (D : Type) where
  sf_read_short : Nat → D → Nat → Int × D
  sf_seek : Nat → D → Int → Int → D
  IBufferQueue_Enqueue : IBufferQueue → Nat → Nat → Nat × IBufferQueue
  IBufferQueue_Clear : IBufferQueue → IBufferQueue

/-- The state the functions act on: the player and the decoding library. -/
structure World (D : Type) where
  player : CAudioPlayer
  decoder : D

/-! ## `SndFile_IsSupported` -/

/-- `SndFile_IsSupported`: four `switch` statements, each of which either falls
through to the next or returns `SL_BOOLEAN_FALSE`. -/
def SndFile_IsSupported (K : Consts) (sfinfo : SF_INFO) : Bool :=
  if Int.land sfinfo.format K.SF_FORMAT_TYPEMASK = K.SF_FORMAT_WAV then
    if Int.land sfinfo.format K.SF_FORMAT_SUBMASK = K.SF_FORMAT_PCM_U8 ∨
        Int.land sfinfo.format K.SF_FORMAT_SUBMASK = K.SF_FORMAT_PCM_16 then
      if sfinfo.samplerate = 11025 ∨ sfinfo.samplerate = 22050 ∨
          sfinfo.samplerate = 44100 then
        if sfinfo.channels = 1 ∨ sfinfo.channels = 2 then
          true
        else
          false
      else
        false
    else
      false
  else
    false

/-! ## `SndFile_Callback` -/

/-- The position and milestone bookkeeping of `SndFile_Callback` (the block
guarded by `0 != sampleRateMilliHz`), run under the exclusive object lock.
Returns the updated play interface and the local `headAtNewPos`.  The product
with `1000000LL` is a `long long` product of a 32-bit value and cannot wrap;
the subtraction of the period is guarded by `>=` and cannot wrap either. -/
def SndFile_Callback_position (K : Consts) (mPlay : IPlay) (sampleRateMilliHz : Nat) :
    IPlay × Bool :=
  if 0 ≠ sampleRateMilliHz then
    let mPlay1 : IPlay := { mPlay with
      mPosition := toSLuint32 (toSLuint32 (mPlay.mFramesSinceLastSeek * 1000000 /
        sampleRateMilliHz) + mPlay.mLastSeekPosition) }
    let frameUpdatePeriod := mPlay1.mFrameUpdatePeriod
    if 0 ≠ frameUpdatePeriod ∧
        mPlay1.mFramesSincePositionUpdate ≥ frameUpdatePeriod ∧
        (K.SL_PLAYEVENT_HEADATNEWPOS &&& mPlay1.mEventFlags) ≠ 0 then
      let decremented := mPlay1.mFramesSincePositionUpdate - mPlay1.mFrameUpdatePeriod
      let folded :=
        if decremented ≥ frameUpdatePeriod then decremented % frameUpdatePeriod
        else decremented
      ({ mPlay1 with mFramesSincePositionUpdate := folded }, true)
    else
      (mPlay1, false)
  else
    (mPlay, false)

/-- `SndFile_Callback`.  The argument `caller` is the buffer queue of the
player itself (`&mBufferQueue.mItf`, as at the call in
`audioPlayerTransportUpdate`).  The application callback and the attribute hook
behind `object_unlock_exclusive_attributes` are recorded as events; what they
do to the player afterwards is a later step of the environment. -/
def SndFile_Callback {D : Type} (K : Consts) (E : Env D) (w : World D) :
    World D × List Event :=
  let thisAP := w.player
  let state := thisAP.mPlay.mState
  let peek := [Event.object_lock_peek, Event.object_unlock_peek]
  if K.SL_PLAYSTATE_PLAYING ≠ state then
    (w, peek)
  else
    let this := thisAP.mSndFile
    if this.mEOF then
      (w, peek ++ [Event.pthread_mutex_lock, Event.pthread_mutex_unlock])
    else
      let pBuffer := this.mWhich
      let incremented := toSLuint32 (this.mWhich + 1)
      let wraps : Bool := decide (incremented ≥ K.SndFile_NUMBUFS)
      let which := if wraps then 0 else incremented
      let rd := E.sf_read_short this.mSNDFILE w.decoder K.SndFile_BUFSIZE
      let count := rd.1
      let locked := peek ++ [Event.pthread_mutex_lock, Event.write_mWhich incremented] ++
        (if wraps then [Event.write_mWhich 0] else []) ++
        [Event.sf_read_short this.mSNDFILE pBuffer K.SndFile_BUFSIZE,
         Event.pthread_mutex_unlock, Event.object_lock_exclusive]
      let callback := thisAP.mPlay.mCallback
      let context := thisAP.mPlay.mContext
      let pos := SndFile_Callback_position K thisAP.mPlay thisAP.mSampleRateMilliHz
      let headAtNewPos := pos.2
      let notify :=
        if NULL ≠ callback ∧ headAtNewPos = true then
          [Event.callback callback context K.SL_PLAYEVENT_HEADATNEWPOS]
        else []
      if 0 < count then
        let size := toSLuint32 (count.toNat * K.sizeof_short)
        let enq := E.IBufferQueue_Enqueue thisAP.mBufferQueue pBuffer size
        let result := enq.1
        let logged := if K.SL_RESULT_SUCCESS ≠ result then [Event.SL_LOGE result] else []
        ({ player := { thisAP with
              mPlay := pos.1
              mBufferQueue := enq.2
              mSndFile := { this with mWhich := which } }
           decoder := rd.2 },
         locked ++ [Event.object_unlock_exclusive, Event.IBufferQueue_Enqueue pBuffer size] ++
           logged ++ notify)
      else
        ({ player := { thisAP with
              mPlay := { pos.1 with mState := K.SL_PLAYSTATE_PAUSED }
              mSndFile := { this with mWhich := which, mEOF := true } }
           decoder := rd.2 },
         locked ++ [Event.write_mEOF true,
           Event.object_unlock_exclusive_attributes K.ATTR_TRANSPORT] ++ notify)

/-- Division as the machine performs it: there is no result for a zero
divisor. -/
def checkedDiv (a b : Nat) : Option Nat := if b = 0 then none else some (a / b)

/-- Remainder as the machine performs it: there is no result for a zero
divisor. -/
def checkedMod (a b : Nat) : Option Nat := if b = 0 then none else some (a % b)

/-- The block of `SndFile_Callback_position` again, with the division and the
remainder as steps that can fail: the result is `none` when a division by zero
is evaluated. -/
def SndFile_Callback_position_checked (K : Consts) (mPlay : IPlay) (sampleRateMilliHz : Nat) :
    Option (IPlay × Bool) :=
  if 0 ≠ sampleRateMilliHz then
    match checkedDiv (mPlay.mFramesSinceLastSeek * 1000000) sampleRateMilliHz with
    | none => none
    | some quotient =>
      let mPlay1 : IPlay := { mPlay with
        mPosition := toSLuint32 (toSLuint32 quotient + mPlay.mLastSeekPosition) }
      let frameUpdatePeriod := mPlay1.mFrameUpdatePeriod
      if 0 ≠ frameUpdatePeriod ∧
          mPlay1.mFramesSincePositionUpdate ≥ frameUpdatePeriod ∧
          (K.SL_PLAYEVENT_HEADATNEWPOS &&& mPlay1.mEventFlags) ≠ 0 then
        let decremented := mPlay1.mFramesSincePositionUpdate - mPlay1.mFrameUpdatePeriod
        if decremented ≥ frameUpdatePeriod then
          match checkedMod decremented frameUpdatePeriod with
          | none => none
          | some folded => some ({ mPlay1 with mFramesSincePositionUpdate := folded }, true)
        else
          some ({ mPlay1 with mFramesSincePositionUpdate := decremented }, true)
      else
        some (mPlay1, false)
  else
    some (mPlay, false)

/-! ## `SndFile_checkAudioPlayerSourceSink` -/

/-- The test `!strncmp(a, b, n)`: the first `n` characters of the two strings
agree (a string shorter than `n` agrees only with a string of the same
length). -/
def strncmp_eq0 (a b : List Char) (n : Nat) : Bool := a.take n == b.take n

/-- The tail of `SndFile_checkAudioPlayerSourceSink`, reached from both
accepted locator cases: the session is initialised and success returned. -/
def SndFile_checkAudioPlayerSourceSink_init (K : Consts) (this : CAudioPlayer) :
    Nat × CAudioPlayer :=
  (K.SL_RESULT_SUCCESS,
   { this with mSndFile := { this.mSndFile with mWhich := 0, mSNDFILE := NULL, mEOF := false } })

/-- `SndFile_checkAudioPlayerSourceSink`: the result code and the player as the
call leaves it. -/
def SndFile_checkAudioPlayerSourceSink (K : Consts) (this : CAudioPlayer) :
    Nat × CAudioPlayer :=
  let pAudioSrc := this.mDataSource
  let locatorType := pAudioSrc.locatorType
  let formatType := pAudioSrc.formatType
  if locatorType = K.SL_DATALOCATOR_BUFFERQUEUE then
    SndFile_checkAudioPlayerSourceSink_init K this
  else if locatorType = K.SL_DATALOCATOR_URI then
    match pAudioSrc.URI with
    | none => (K.SL_RESULT_PARAMETER_INVALID, this)
    | some uri0 =>
      let uri := if strncmp_eq0 uri0 ['f', 'i', 'l', 'e', ':', '/', '/', '/'] 8 then uri0.drop 8
        else uri0
      if formatType = K.SL_DATAFORMAT_NULL ∨ formatType = K.SL_DATAFORMAT_MIME then
        SndFile_checkAudioPlayerSourceSink_init K { this with
          mSndFile := { this.mSndFile with mPathname := some uri }
          mBufferQueue := { this.mBufferQueue with mNumBuffers := K.SndFile_NUMBUFS } }
      else
        (K.SL_RESULT_CONTENT_UNSUPPORTED, this)
  else
    (K.SL_RESULT_CONTENT_UNSUPPORTED, this)

/-! ## `audioPlayerTransportUpdate` -/

/-- The first half of `audioPlayerTransportUpdate`, under the exclusive object
lock: the prefetch placeholder, and the consumption of a pending seek.
Returns the player and the local `pos` as they are when the lock is
released. -/
def audioPlayerTransportUpdate_locked (K : Consts) (audioPlayer : CAudioPlayer) :
    CAudioPlayer × Nat :=
  let ap1 : CAudioPlayer := { audioPlayer with mPrefetchStatus := { mLevel := 1000 } }
  let pos := ap1.mSeek.mPos
  if K.SL_TIME_UNKNOWN ≠ pos then
    let trimmed := if pos > ap1.mPlay.mDuration then ap1.mPlay.mDuration else pos
    ({ ap1 with
        mSeek := { mPos := K.SL_TIME_UNKNOWN }
        mPlay := { ap1.mPlay with
          mLastSeekPosition := trimmed
          mFramesSinceLastSeek := 0
          mFramesSincePositionUpdate := 0 } },
     trimmed)
  else
    (ap1, pos)

/-- The sample offset handed to `sf_seek`:
`(sf_count_t) (((long long) pos * samplerate) / 1000LL)`. -/
def seekFrames (pos : Nat) (samplerate : Int) : Int :=
  Int.tdiv (wrapInt64 ((pos : Int) * samplerate)) 1000

/-- The second half of `audioPlayerTransportUpdate`, with no object lock held:
when the local `pos` is not the sentinel, the queue is cleared and, under the
session mutex, the decoder repositioned, `mEOF` cleared and `mWhich` reset.
Returns the state, the events, and the local `empty`. -/
def audioPlayerTransportUpdate_seek {D : Type} (K : Consts) (E : Env D) (w : World D)
    (pos : Nat) (empty : Bool) : World D × List Event × Bool :=
  let audioPlayer := w.player
  if K.SL_TIME_UNKNOWN ≠ pos then
    let frames := seekFrames pos audioPlayer.mSndFile.mSfInfo.samplerate
    ({ player := { audioPlayer with
          mBufferQueue := E.IBufferQueue_Clear audioPlayer.mBufferQueue
          mSndFile := { audioPlayer.mSndFile with mEOF := false, mWhich := 0 } }
       decoder := E.sf_seek audioPlayer.mSndFile.mSNDFILE w.decoder frames K.SEEK_SET },
     [Event.IBufferQueue_Clear, Event.pthread_mutex_lock,
      Event.sf_seek audioPlayer.mSndFile.mSNDFILE frames K.SEEK_SET,
      Event.write_mEOF false, Event.write_mWhich 0, Event.pthread_mutex_unlock],
     true)
  else
    (w, [], empty)

/-- `audioPlayerTransportUpdate`. -/
def audioPlayerTransportUpdate {D : Type} (K : Consts) (E : Env D) (w : World D) :
    World D × List Event :=
  if NULL ≠ w.player.mSndFile.mSNDFILE then
    let empty : Bool := decide (0 = w.player.mBufferQueue.mState_count)
    let locked := audioPlayerTransportUpdate_locked K w.player
    let sk := audioPlayerTransportUpdate_seek K E { w with player := locked.1 } locked.2 empty
    let events := [Event.object_lock_exclusive, Event.object_unlock_exclusive] ++ sk.2.1
    if sk.2.2 then
      let cb := SndFile_Callback K E sk.1
      (cb.1, events ++ cb.2)
    else
      (sk.1, events)
  else
    (w, [])

/-- The state `audioPlayerTransportUpdate` has reached, with an open session,
at its final test of `empty`, before `SndFile_Callback` may be invoked. -/
def audioPlayerTransportUpdate_beforeCallback {D : Type} (K : Consts) (E : Env D)
    (w : World D) : World D :=
  (audioPlayerTransportUpdate_seek K E
    { w with player := (audioPlayerTransportUpdate_locked K w.player).1 }
    (audioPlayerTransportUpdate_locked K w.player).2
    (decide (0 = w.player.mBufferQueue.mState_count))).1

/-! ## Observations on event lists -/

/-- The event is a call of the decoder's read function. -/
def Event.isRead : Event → Bool
  | Event.sf_read_short _ _ _ => true
  | _ => false

/-- The event is a submission to the buffer queue. -/
def Event.isEnqueue : Event → Bool
  | Event.IBufferQueue_Enqueue _ _ => true
  | _ => false

/-- The event is an invocation of the application callback. -/
def Event.isCallback : Event → Bool
  | Event.callback _ _ _ => true
  | _ => false

/-- The buffer indices of the decoder reads in an event list, in order. -/
def readIndices : List Event → List Nat
  | [] => []
  | Event.sf_read_short _ i _ :: es => i :: readIndices es
  | _ :: es => readIndices es

/-! ## Sequences of callback cycles -/

/-- Successive `SndFile_Callback` cycles.  Before each cycle the rest of the
system (mixer, application, player framework) acts on the state through the
given function.  For each cycle the result lists the state at entry, the state
at exit and the events of the cycle. -/
def runCallbacks {D : Type} (K : Consts) (E : Env D) :
    List (World D → World D) → World D → List (World D × World D × List Event)
  | [], _ => []
  | f :: fs, w =>
    (f w, (SndFile_Callback K E (f w)).1, (SndFile_Callback K E (f w)).2) ::
      runCallbacks K E fs (SndFile_Callback K E (f w)).1

/-- The state after the cycles of `runCallbacks`. -/
def runCallbacks_final {D : Type} (K : Consts) (E : Env D) :
    List (World D → World D) → World D → World D
  | [], w => w
  | f :: fs, w => runCallbacks_final K E fs (SndFile_Callback K E (f w)).1

/-- The play state is set to the given value; nothing else changes. -/
def setPlayState {D : Type} (state : Nat) (w : World D) : World D :=
  { w with player := { w.player with mPlay := { w.player.mPlay with mState := state } } }

/-- The value of `mWhich` after
`if (++this->mWhich >= SndFile_NUMBUFS) this->mWhich = 0;`. -/
def nextWhich (K : Consts) (which : Nat) : Nat :=
  if toSLuint32 (which + 1) ≥ K.SndFile_NUMBUFS then 0 else toSLuint32 (which + 1)

/-- The cycle entered in this state decodes a positive frame count: the player
is playing, the session is not at end of stream, and the read returns more than
zero. -/
def decodesPositive {D : Type} (K : Consts) (E : Env D) (w : World D) : Prop :=
  w.player.mPlay.mState = K.SL_PLAYSTATE_PLAYING ∧
  w.player.mSndFile.mEOF = false ∧
  0 < (E.sf_read_short w.player.mSndFile.mSNDFILE w.decoder K.SndFile_BUFSIZE).1

/-- For each cycle of `runCallbacks`, the buffer indices its decoder reads went
to. -/
def cycleReadIndices {D : Type} (K : Consts) (E : Env D) (fs : List (World D → World D))
    (w : World D) : List (List Nat) :=
  (runCallbacks K E fs w).map (fun c => readIndices c.2.2)

/-- The frame counters advance by `n`, as when the mixer has consumed `n`
frames; nothing else changes. -/
def consumeFrames {D : Type} (n : Nat) (w : World D) : World D :=
  { w with player := { w.player with mPlay := { w.player.mPlay with
      mFramesSinceLastSeek := w.player.mPlay.mFramesSinceLastSeek + n
      mFramesSincePositionUpdate := w.player.mPlay.mFramesSincePositionUpdate + n } } }

/-! ## Histories of a session -/

/-- The event is a call of the decoder's seek function. -/
def Event.isSeek : Event → Bool
  | Event.sf_seek _ _ _ => true
  | _ => false

/-- Replay of the library calls of an event list, from a library state and the
count returned by the most recent decoder read so far (`none` when there has
been none).  With `sinceSeek` the record is of the most recent read since the
last seek: a seek sets it back to `none`. -/
def lastRead {D : Type} (E : Env D) (sinceSeek : Bool) :
    List Event → D × Option Int → D × Option Int
  | [], s => s
  | Event.sf_read_short sndfile _ items :: es, s =>
    lastRead E sinceSeek es
      ((E.sf_read_short sndfile s.1 items).2, some (E.sf_read_short sndfile s.1 items).1)
  | Event.sf_seek sndfile frames whence :: es, s =>
    lastRead E sinceSeek es
      (E.sf_seek sndfile s.1 frames whence, if sinceSeek then none else s.2)
  | _ :: es, s => lastRead E sinceSeek es s

/-- What can happen to a session: a refill, a transport update, or a step of
the rest of the system (the application, the mixer, the object that opens the
decoder), given as a function on the state. -/
inductive Action (D : Type) where
  | callback
  | transportUpdate
  | environment (f : World D → World D)

/-- The rest of the system does not write the end-of-stream flag of the
session. -/
def Action.keepsEOF {D : Type} : Action D → Prop
  | Action.environment f => ∀ w : World D, (f w).player.mSndFile.mEOF = w.player.mSndFile.mEOF
  | _ => True

/-- The state after a sequence of actions, with the record of the most recent
decoder read kept by `lastRead`. -/
def runActions {D : Type} (K : Consts) (E : Env D) (sinceSeek : Bool) :
    List (Action D) → World D × Option Int → World D × Option Int
  | [], s => s
  | Action.callback :: acts, s =>
    runActions K E sinceSeek acts
      ((SndFile_Callback K E s.1).1,
       (lastRead E sinceSeek (SndFile_Callback K E s.1).2 (s.1.decoder, s.2)).2)
  | Action.transportUpdate :: acts, s =>
    runActions K E sinceSeek acts
      ((audioPlayerTransportUpdate K E s.1).1,
       (lastRead E sinceSeek (audioPlayerTransportUpdate K E s.1).2 (s.1.decoder, s.2)).2)
  | Action.environment f :: acts, s => runActions K E sinceSeek acts (f s.1, s.2)

/-- The most recent decoder read on record returned a count that is zero or
negative. -/
def lastReadExhausted (g : Option Int) : Prop := ∃ c : Int, g = some c ∧ c ≤ 0

/-- The decoder handle is set (the source has been opened) and the player set
to playing. -/
def openAndPlay {D : Type} (K : Consts) (sndfile : Nat) (w : World D) : World D :=
  { w with player := { w.player with
      mSndFile := { w.player.mSndFile with mSNDFILE := sndfile }
      mPlay := { w.player.mPlay with mState := K.SL_PLAYSTATE_PLAYING } } }

/-- A seek to `target` is requested. -/
def requestSeek {D : Type} (target : Nat) (w : World D) : World D :=
  { w with player := { w.player with mSeek := { mPos := target } } }

/-! ## Locks -/

/-- How often each lock is held: the session mutex `mMutex`, and the lock of
the player object (taken by `object_lock_peek` and `object_lock_exclusive`). -/
structure Locks where
  mMutex : Nat
  mObject : Nat
deriving DecidableEq

/-- The lock state after an event. -/
def Locks.after (l : Locks) : Event → Locks
  | Event.object_lock_peek => { l with mObject := l.mObject + 1 }
  | Event.object_unlock_peek => { l with mObject := l.mObject - 1 }
  | Event.object_lock_exclusive => { l with mObject := l.mObject + 1 }
  | Event.object_unlock_exclusive => { l with mObject := l.mObject - 1 }
  | Event.object_unlock_exclusive_attributes _ => { l with mObject := l.mObject - 1 }
  | Event.pthread_mutex_lock => { l with mMutex := l.mMutex + 1 }
  | Event.pthread_mutex_unlock => { l with mMutex := l.mMutex - 1 }
  | _ => l

/-- The lock state after a list of events. -/
def locksAfter : Locks → List Event → Locks
  | l, [] => l
  | l, e :: es => locksAfter (l.after e) es

/-- The event is in order in the given lock state: the lock of the player is
taken, a buffer submitted and the application callback invoked only with the
session mutex not held, the callback moreover with the lock of the player not
held; a lock is taken only when not held and released only when held. -/
def Event.inOrder (l : Locks) : Event → Bool
  | Event.object_lock_peek => decide (l.mMutex = 0) && decide (l.mObject = 0)
  | Event.object_lock_exclusive => decide (l.mMutex = 0) && decide (l.mObject = 0)
  | Event.object_unlock_peek => decide (0 < l.mObject)
  | Event.object_unlock_exclusive => decide (0 < l.mObject)
  | Event.object_unlock_exclusive_attributes _ => decide (0 < l.mObject)
  | Event.pthread_mutex_lock => decide (l.mMutex = 0)
  | Event.pthread_mutex_unlock => decide (0 < l.mMutex)
  | Event.IBufferQueue_Enqueue _ _ => decide (l.mMutex = 0)
  | Event.callback _ _ _ => decide (l.mMutex = 0) && decide (l.mObject = 0)
  | _ => true

/-- Every event of the list is in order in the lock state it occurs in. -/
def lockDiscipline : Locks → List Event → Bool
  | _, [] => true
  | l, e :: es => e.inOrder l && lockDiscipline (l.after e) es

/-- The event is a write to `mWhich` or `mEOF`. -/
def Event.isSessionWrite : Event → Bool
  | Event.write_mWhich _ => true
  | Event.write_mEOF _ => true
  | _ => false

/-- The writes to `mWhich` and `mEOF` performed while the session mutex is not
held. -/
def unguardedWrites : Locks → List Event → List Event
  | _, [] => []
  | l, e :: es =>
    (if e.isSessionWrite && decide (l.mMutex = 0) then [e] else []) ++
      unguardedWrites (l.after e) es

/-! ## A concrete decoder and queue, for examples -/

/-- A decoder over a file of `total` samples whose state is the read offset: a
read returns what is left, at most `items`, and advances; a seek sets the
offset. -/
def fileEnv (total : Nat) (enqueueResult : Nat) : Env Nat where
  sf_read_short := fun _ off items => ((min items (total - off) : Nat), off + min items (total - off))
  sf_seek := fun _ _ frames _ => frames.toNat
  IBufferQueue_Enqueue := fun q _ _ => (enqueueResult, q)
  IBufferQueue_Clear := fun q => { q with mState_count := 0 }

/-- A player over a URI source, playing, with the given session and counters. -/
def examplePlayer (K : Consts) (sndfile which : Nat) (eof : Bool) (framesSinceSeek : Nat) :
    CAudioPlayer where
  mDataSource := { locatorType := K.SL_DATALOCATOR_URI, URI := some ['a'],
                   formatType := K.SL_DATAFORMAT_NULL }
  mPlay := { mState := K.SL_PLAYSTATE_PLAYING, mDuration := 10000, mPosition := 0,
             mCallback := 7, mContext := 0, mEventFlags := K.SL_PLAYEVENT_HEADATNEWPOS,
             mFramesSinceLastSeek := framesSinceSeek, mFramesSincePositionUpdate := 0,
             mLastSeekPosition := 0, mFrameUpdatePeriod := 0 }
  mSeek := { mPos := K.SL_TIME_UNKNOWN }
  mBufferQueue := { mNumBuffers := 2, mState_count := 1 }
  mPrefetchStatus := { mLevel := 0 }
  mSampleRateMilliHz := 44100000
  mSndFile := { mPathname := some ['a'], mSNDFILE := sndfile, mWhich := which, mEOF := eof,
                mSfInfo := { samplerate := 44100, channels := 2, format := 0x010002 } }

/-- The example player with a seek to `target` pending. -/
def seekingPlayer (K : Consts) (eof : Bool) (state target : Nat) : CAudioPlayer :=
  { examplePlayer K 1 1 eof 0 with
    mSeek := { mPos := target }
    mPlay := { (examplePlayer K 1 1 eof 0).mPlay with mState := state } }

/-- The example player with milestone notifications every `period` frames,
`frames` frames after the last one, at the given sample rate. -/
def milestonePlayer (K : Consts) (rate period frames : Nat) : CAudioPlayer :=
  { examplePlayer K 1 0 false 0 with
    mSampleRateMilliHz := rate
    mPlay := { (examplePlayer K 1 0 false 0).mPlay with
      mFrameUpdatePeriod := period
      mFramesSincePositionUpdate := frames } }

/-- The example player at 44.1 kHz, `frames` frames after a seek to
`lastSeek` ms. -/
def positionPlayer (K : Consts) (lastSeek position frames : Nat) : CAudioPlayer :=
  { examplePlayer K 1 0 false frames with
    mPlay := { (examplePlayer K 1 0 false frames).mPlay with
      mDuration := 4294967295
      mLastSeekPosition := lastSeek
      mPosition := position } }

/-- A player under construction whose source has the given locator type, URI
and format type; the session fields hold earlier values. -/
def sourcePlayer (locatorType : Nat) (uri : Option (List Char)) (formatType : Nat) :
    CAudioPlayer :=
  { examplePlayer stdConsts 5 1 true 0 with
    mDataSource := { locatorType := locatorType, URI := uri, formatType := formatType } }

/-! ## Theorems -/

/-- C1: `SndFile_IsSupported` returns true exactly when the masked container
type is `SF_FORMAT_WAV`, the masked encoding is `SF_FORMAT_PCM_U8` or
`SF_FORMAT_PCM_16`, the sample rate is 11025, 22050 or 44100 and the channel
count is 1 or 2; with the libsndfile constants, (WAV, PCM_16, 44100, 2) is
accepted and (WAV, PCM_16, 48000, 2) is rejected. -/
theorem SndFile_IsSupported_iff :
    (∀ (K : Consts) (sfinfo : SF_INFO),
      SndFile_IsSupported K sfinfo = true ↔
        (Int.land sfinfo.format K.SF_FORMAT_TYPEMASK = K.SF_FORMAT_WAV ∧
         (Int.land sfinfo.format K.SF_FORMAT_SUBMASK = K.SF_FORMAT_PCM_U8 ∨
          Int.land sfinfo.format K.SF_FORMAT_SUBMASK = K.SF_FORMAT_PCM_16) ∧
         (sfinfo.samplerate = 11025 ∨ sfinfo.samplerate = 22050 ∨ sfinfo.samplerate = 44100) ∧
         (sfinfo.channels = 1 ∨ sfinfo.channels = 2))) ∧
    SndFile_IsSupported stdConsts
      { samplerate := 44100, channels := 2, format := 0x010000 + 0x0002 } = true ∧
    SndFile_IsSupported stdConsts
      { samplerate := 48000, channels := 2, format := 0x010000 + 0x0002 } = false := by
  refine ⟨?_, by decide, by decide⟩
  intro K sfinfo
  unfold SndFile_IsSupported
  constructor
  · intro h
    split_ifs at h with h1 h2 h3 h4
    exact ⟨h1, h2, h3, h4⟩
  · rintro ⟨h1, h2, h3, h4⟩
    simp only [h1, h2, h3, h4, if_true]

/-! ### Helper lemmas on `SndFile_Callback` -/

theorem SndFile_Callback_eof_fst {D : Type} (K : Consts) (E : Env D) (w : World D)
    (h : w.player.mSndFile.mEOF = true) : (SndFile_Callback K E w).1 = w := by
  unfold SndFile_Callback
  by_cases hs : K.SL_PLAYSTATE_PLAYING ≠ w.player.mPlay.mState <;> simp [hs, h]

theorem SndFile_Callback_eof_noRead {D : Type} (K : Consts) (E : Env D) (w : World D)
    (h : w.player.mSndFile.mEOF = true) :
    (SndFile_Callback K E w).2.any Event.isRead = false := by
  unfold SndFile_Callback
  by_cases hs : K.SL_PLAYSTATE_PLAYING ≠ w.player.mPlay.mState <;>
    simp [hs, h, Event.isRead]

theorem runCallbacks_eof_noRead {D : Type} (K : Consts) (E : Env D)
    (fs : List (World D → World D))
    (hfs : ∀ f ∈ fs, ∀ v : World D, (f v).player.mSndFile.mEOF = v.player.mSndFile.mEOF) :
    ∀ w : World D, w.player.mSndFile.mEOF = true →
      ∀ c ∈ runCallbacks K E fs w, c.2.2.any Event.isRead = false := by
  induction fs with
  | nil => intro w _ c hc; simp [runCallbacks] at hc
  | cons f fs ih =>
    intro w hw c hc
    have hf : (f w).player.mSndFile.mEOF = true := by
      rw [hfs f (List.mem_cons_self _ _) w]; exact hw
    simp only [runCallbacks, List.mem_cons] at hc
    rcases hc with hc | hc
    · subst hc
      exact SndFile_Callback_eof_noRead K E (f w) hf
    · refine ih (fun g hg => hfs g (List.mem_cons_of_mem _ hg)) _ ?_ c hc
      rw [SndFile_Callback_eof_fst K E (f w) hf]; exact hf

/-- The state and events of a cycle that is playing, not at end of stream, and
whose read returns no frames. -/
theorem SndFile_Callback_exhausted_eq {D : Type} (K : Consts) (E : Env D) (w : World D)
    (hplay : w.player.mPlay.mState = K.SL_PLAYSTATE_PLAYING)
    (heof : w.player.mSndFile.mEOF = false)
    (hcount : (E.sf_read_short w.player.mSndFile.mSNDFILE w.decoder K.SndFile_BUFSIZE).1 ≤ 0) :
    (SndFile_Callback K E w).1.player.mPlay.mState = K.SL_PLAYSTATE_PAUSED ∧
    (SndFile_Callback K E w).1.player.mSndFile.mEOF = true ∧
    (SndFile_Callback K E w).1.player.mBufferQueue = w.player.mBufferQueue ∧
    (SndFile_Callback K E w).2.any Event.isEnqueue = false := by
  have hc : ¬ (0 < (E.sf_read_short w.player.mSndFile.mSNDFILE w.decoder
      K.SndFile_BUFSIZE).1) := not_lt.mpr hcount
  unfold SndFile_Callback
  simp only [hplay, heof, hc, ne_eq, not_true_eq_false, if_false, Bool.false_eq_true]
  refine ⟨trivial, trivial, trivial, ?_⟩
  split_ifs <;> simp [Event.isEnqueue]

/-- C2: in a state that is playing and not at end of stream, when the decoder
read returns a count that is zero or negative, `SndFile_Callback` sets the play
state to paused and `mEOF` to true and enqueues nothing; and in every later
sequence of callback cycles during which `mEOF` is not cleared (no seek), no
cycle performs a decoder read, whatever else the environment changes between
the cycles (the play state included). -/
theorem SndFile_Callback_exhaustion {D : Type} (K : Consts) (E : Env D) (w : World D)
    (hplay : w.player.mPlay.mState = K.SL_PLAYSTATE_PLAYING)
    (heof : w.player.mSndFile.mEOF = false)
    (hcount : (E.sf_read_short w.player.mSndFile.mSNDFILE w.decoder K.SndFile_BUFSIZE).1 ≤ 0) :
    (SndFile_Callback K E w).1.player.mPlay.mState = K.SL_PLAYSTATE_PAUSED ∧
    (SndFile_Callback K E w).1.player.mSndFile.mEOF = true ∧
    (SndFile_Callback K E w).2.any Event.isEnqueue = false ∧
    (SndFile_Callback K E w).1.player.mBufferQueue = w.player.mBufferQueue ∧
    ∀ fs : List (World D → World D),
      (∀ f ∈ fs, ∀ v : World D, (f v).player.mSndFile.mEOF = v.player.mSndFile.mEOF) →
      ∀ c ∈ runCallbacks K E fs (SndFile_Callback K E w).1,
        c.2.2.any Event.isRead = false := by
  obtain ⟨h1, h2, h3, h4⟩ := SndFile_Callback_exhausted_eq K E w hplay heof hcount
  exact ⟨h1, h2, h4, h3, fun fs hfs => runCallbacks_eof_noRead K E fs hfs _ h2⟩

/-- Witness for C2: an empty file, a playing player; afterwards the application
sets the play state back to playing and two more cycles run. -/
theorem SndFile_Callback_exhaustion_witness :
    (SndFile_Callback stdConsts (fileEnv 0 0)
        ⟨examplePlayer stdConsts 1 0 false 0, 0⟩).1.player.mPlay.mState = 2 ∧
    (SndFile_Callback stdConsts (fileEnv 0 0)
        ⟨examplePlayer stdConsts 1 0 false 0, 0⟩).1.player.mSndFile.mEOF = true ∧
    (runCallbacks stdConsts (fileEnv 0 0) [setPlayState 3, setPlayState 3]
        (SndFile_Callback stdConsts (fileEnv 0 0)
          ⟨examplePlayer stdConsts 1 0 false 0, 0⟩).1).all
      (fun c => !c.2.2.any Event.isRead) = true :=
  have h := SndFile_Callback_exhaustion stdConsts (fileEnv 0 0)
    ⟨examplePlayer stdConsts 1 0 false 0, 0⟩ rfl rfl (by decide)
  ⟨h.1, h.2.1, List.all_eq_true.mpr (fun c hc => by
    rw [h.2.2.2.2 [setPlayState 3, setPlayState 3] (by
      intro f hf v
      simp only [List.mem_cons, List.mem_singleton, List.not_mem_nil, or_false, or_self] at hf
      subst hf
      rfl) c hc]
    rfl)⟩

/-! ### Seek clipping -/

theorem SndFile_Callback_position_mLastSeekPosition (K : Consts) (mPlay : IPlay) (rate : Nat) :
    (SndFile_Callback_position K mPlay rate).1.mLastSeekPosition = mPlay.mLastSeekPosition := by
  unfold SndFile_Callback_position
  dsimp only
  split_ifs <;> rfl

theorem SndFile_Callback_mLastSeekPosition {D : Type} (K : Consts) (E : Env D) (w : World D) :
    (SndFile_Callback K E w).1.player.mPlay.mLastSeekPosition =
      w.player.mPlay.mLastSeekPosition := by
  unfold SndFile_Callback
  dsimp only
  split_ifs <;> simp only [SndFile_Callback_position_mLastSeekPosition]

theorem audioPlayerTransportUpdate_locked_pending (K : Consts) (audioPlayer : CAudioPlayer)
    (hpos : audioPlayer.mSeek.mPos ≠ K.SL_TIME_UNKNOWN) :
    audioPlayerTransportUpdate_locked K audioPlayer =
      ({ audioPlayer with
          mPrefetchStatus := { mLevel := 1000 }
          mSeek := { mPos := K.SL_TIME_UNKNOWN }
          mPlay := { audioPlayer.mPlay with
            mLastSeekPosition := min audioPlayer.mSeek.mPos audioPlayer.mPlay.mDuration
            mFramesSinceLastSeek := 0
            mFramesSincePositionUpdate := 0 } },
       min audioPlayer.mSeek.mPos audioPlayer.mPlay.mDuration) := by
  have hmin : (if audioPlayer.mSeek.mPos > audioPlayer.mPlay.mDuration
      then audioPlayer.mPlay.mDuration else audioPlayer.mSeek.mPos) =
      min audioPlayer.mSeek.mPos audioPlayer.mPlay.mDuration := by
    split_ifs with h
    · exact (Nat.min_eq_right (Nat.le_of_lt h)).symm
    · exact (Nat.min_eq_left (Nat.le_of_not_lt h)).symm
  unfold audioPlayerTransportUpdate_locked
  simp only [ne_eq, Ne.symm hpos, not_false_eq_true, if_true, hmin]

theorem audioPlayerTransportUpdate_seek_mPlay {D : Type} (K : Consts) (E : Env D)
    (w : World D) (pos : Nat) (empty : Bool) :
    (audioPlayerTransportUpdate_seek K E w pos empty).1.player.mPlay = w.player.mPlay := by
  unfold audioPlayerTransportUpdate_seek
  dsimp only
  split_ifs <;> rfl

/-- C3: with an open decoder session and a pending seek target `pos` (not the
sentinel), after `audioPlayerTransportUpdate` the effective seek position
`mLastSeekPosition` is `min pos mDuration`; a target above the duration yields
the duration. -/
theorem audioPlayerTransportUpdate_clips_seek {D : Type} (K : Consts) (E : Env D) (w : World D)
    (hopen : NULL ≠ w.player.mSndFile.mSNDFILE)
    (hpos : w.player.mSeek.mPos ≠ K.SL_TIME_UNKNOWN) :
    (audioPlayerTransportUpdate K E w).1.player.mPlay.mLastSeekPosition =
        min w.player.mSeek.mPos w.player.mPlay.mDuration ∧
    (w.player.mSeek.mPos > w.player.mPlay.mDuration →
      (audioPlayerTransportUpdate K E w).1.player.mPlay.mLastSeekPosition =
        w.player.mPlay.mDuration) := by
  have key : (audioPlayerTransportUpdate K E w).1.player.mPlay.mLastSeekPosition =
      min w.player.mSeek.mPos w.player.mPlay.mDuration := by
    unfold audioPlayerTransportUpdate
    rw [if_pos hopen]
    simp only []
    split_ifs
    · rw [SndFile_Callback_mLastSeekPosition, audioPlayerTransportUpdate_seek_mPlay,
        audioPlayerTransportUpdate_locked_pending K w.player hpos]
    · rw [audioPlayerTransportUpdate_seek_mPlay,
        audioPlayerTransportUpdate_locked_pending K w.player hpos]
  refine ⟨key, fun h => ?_⟩
  rw [key]
  exact Nat.min_eq_right (Nat.le_of_lt h)

/-- Witness for C3: a seek to 20000 ms in a stream of 10000 ms. -/
theorem audioPlayerTransportUpdate_clips_seek_witness :
    (audioPlayerTransportUpdate stdConsts (fileEnv 100000 0)
      ⟨seekingPlayer stdConsts false 3 20000, 0⟩).1.player.mPlay.mLastSeekPosition = 10000 :=
  (audioPlayerTransportUpdate_clips_seek stdConsts (fileEnv 100000 0)
    ⟨seekingPlayer stdConsts false 3 20000, 0⟩ (by decide) (by decide)).1.trans (by decide)

/-! ### Milestone cadence -/

theorem SndFile_Callback_position_milestone (K : Consts) (mPlay : IPlay) (rate : Nat)
    (hrate : rate ≠ 0) (hperiod : mPlay.mFrameUpdatePeriod ≠ 0)
    (hframes : mPlay.mFramesSincePositionUpdate ≥ mPlay.mFrameUpdatePeriod)
    (hflags : K.SL_PLAYEVENT_HEADATNEWPOS &&& mPlay.mEventFlags ≠ 0) :
    (SndFile_Callback_position K mPlay rate).2 = true ∧
    (SndFile_Callback_position K mPlay rate).1.mFramesSincePositionUpdate =
      mPlay.mFramesSincePositionUpdate % mPlay.mFrameUpdatePeriod := by
  unfold SndFile_Callback_position
  dsimp only
  rw [if_pos (Ne.symm hrate), if_pos ⟨Ne.symm hperiod, hframes, hflags⟩]
  refine ⟨rfl, ?_⟩
  dsimp only
  split_ifs with h
  · exact (Nat.mod_eq_sub_mod hframes).symm
  · rw [Nat.mod_eq_sub_mod hframes]
    exact (Nat.mod_eq_of_lt (Nat.lt_of_not_le h)).symm

theorem SndFile_Callback_position_zero_rate (K : Consts) (mPlay : IPlay) :
    SndFile_Callback_position K mPlay 0 = (mPlay, false) := by
  unfold SndFile_Callback_position
  simp

/-- The application callbacks of a cycle that gets past both early returns. -/
theorem SndFile_Callback_callbacks {D : Type} (K : Consts) (E : Env D) (w : World D)
    (hplay : w.player.mPlay.mState = K.SL_PLAYSTATE_PLAYING)
    (heof : w.player.mSndFile.mEOF = false) :
    (SndFile_Callback K E w).2.filter Event.isCallback =
      if NULL ≠ w.player.mPlay.mCallback ∧
          (SndFile_Callback_position K w.player.mPlay w.player.mSampleRateMilliHz).2 = true then
        [Event.callback w.player.mPlay.mCallback w.player.mPlay.mContext
          K.SL_PLAYEVENT_HEADATNEWPOS]
      else [] := by
  unfold SndFile_Callback
  dsimp only
  simp only [hplay, heof, ne_eq, not_true_eq_false, if_false, Bool.false_eq_true]
  split_ifs <;> simp [Event.isCallback]

/-- The play interface after a cycle that gets past both early returns. -/
theorem SndFile_Callback_mPlay {D : Type} (K : Consts) (E : Env D) (w : World D)
    (hplay : w.player.mPlay.mState = K.SL_PLAYSTATE_PLAYING)
    (heof : w.player.mSndFile.mEOF = false) :
    (SndFile_Callback K E w).1.player.mPlay =
      if 0 < (E.sf_read_short w.player.mSndFile.mSNDFILE w.decoder K.SndFile_BUFSIZE).1 then
        (SndFile_Callback_position K w.player.mPlay w.player.mSampleRateMilliHz).1
      else
        { (SndFile_Callback_position K w.player.mPlay w.player.mSampleRateMilliHz).1 with
          mState := K.SL_PLAYSTATE_PAUSED } := by
  unfold SndFile_Callback
  dsimp only
  simp only [hplay, heof, ne_eq, not_true_eq_false, if_false, Bool.false_eq_true]
  split_ifs <;> rfl

/-- C4, as stated, fails: with a sample rate of zero, a period of 10 and 35
frames since the last update (milestones enabled, callback registered, playing,
not at end of stream), the cycle invokes no callback and leaves the counter at
35, not at 5. -/
theorem SndFile_Callback_milestone_zero_rate_counterexample :
    ((0 < 10 ∧ 10 ≤ 35 ∧ 35 < 2 ^ 32) ∧
     (milestonePlayer stdConsts 0 10 35).mPlay.mState = stdConsts.SL_PLAYSTATE_PLAYING ∧
     (milestonePlayer stdConsts 0 10 35).mSndFile.mEOF = false ∧
     stdConsts.SL_PLAYEVENT_HEADATNEWPOS &&&
       (milestonePlayer stdConsts 0 10 35).mPlay.mEventFlags ≠ 0 ∧
     NULL ≠ (milestonePlayer stdConsts 0 10 35).mPlay.mCallback ∧
     (milestonePlayer stdConsts 0 10 35).mPlay.mFrameUpdatePeriod = 10 ∧
     (milestonePlayer stdConsts 0 10 35).mPlay.mFramesSincePositionUpdate = 35) ∧
    (SndFile_Callback stdConsts (fileEnv 100000 0)
      ⟨milestonePlayer stdConsts 0 10 35, 0⟩).2.filter Event.isCallback = [] ∧
    (SndFile_Callback stdConsts (fileEnv 100000 0)
      ⟨milestonePlayer stdConsts 0 10 35, 0⟩).1.player.mPlay.mFramesSincePositionUpdate = 35 ∧
    35 % 10 ≠ 35 := by
  decide

/-- C4, amended: for every update period `P > 0` and every frames-since-update
value `F ≥ P` that fits in 32 bits, a single `SndFile_Callback` cycle run while
playing, not at end of stream, with a non-zero sample rate
(`mSampleRateMilliHz`), with milestone notifications enabled and a callback
registered, invokes the callback exactly once, with the `HEADATNEWPOS` event,
and leaves `mFramesSincePositionUpdate` equal to `F mod P`; for `F = 3P + r`
with `r < P` that is `r`. -/
theorem SndFile_Callback_milestone {D : Type} (K : Consts) (E : Env D) (w : World D)
    (P F : Nat) (hP : 0 < P) (hFP : P ≤ F) (_hF32 : F < 2 ^ 32)
    (hplay : w.player.mPlay.mState = K.SL_PLAYSTATE_PLAYING)
    (heof : w.player.mSndFile.mEOF = false)
    (hrate : w.player.mSampleRateMilliHz ≠ 0)
    (hflags : K.SL_PLAYEVENT_HEADATNEWPOS &&& w.player.mPlay.mEventFlags ≠ 0)
    (hcb : NULL ≠ w.player.mPlay.mCallback)
    (hperiod : w.player.mPlay.mFrameUpdatePeriod = P)
    (hframes : w.player.mPlay.mFramesSincePositionUpdate = F) :
    (SndFile_Callback K E w).2.filter Event.isCallback =
      [Event.callback w.player.mPlay.mCallback w.player.mPlay.mContext
        K.SL_PLAYEVENT_HEADATNEWPOS] ∧
    (SndFile_Callback K E w).1.player.mPlay.mFramesSincePositionUpdate = F % P ∧
    (∀ r : Nat, r < P → F = 3 * P + r →
      (SndFile_Callback K E w).1.player.mPlay.mFramesSincePositionUpdate = r) := by
  have hm := SndFile_Callback_position_milestone K w.player.mPlay w.player.mSampleRateMilliHz
    hrate (by rw [hperiod]; exact Nat.pos_iff_ne_zero.mp hP) (by rw [hperiod, hframes]; exact hFP)
    hflags
  rw [hperiod, hframes] at hm
  have hfr : (SndFile_Callback K E w).1.player.mPlay.mFramesSincePositionUpdate = F % P := by
    rw [SndFile_Callback_mPlay K E w hplay heof]
    split_ifs
    · exact hm.2
    · exact hm.2
  refine ⟨?_, hfr, ?_⟩
  · rw [SndFile_Callback_callbacks K E w hplay heof, if_pos ⟨hcb, hm.1⟩]
  · intro r hr hF
    rw [hfr, hF, Nat.mul_comm, Nat.mul_add_mod]
    exact Nat.mod_eq_of_lt hr

/-- Witness for C4: a period of 10 frames, 35 frames since the last update, at
44.1 kHz. -/
theorem SndFile_Callback_milestone_witness :
    (SndFile_Callback stdConsts (fileEnv 100000 0)
      ⟨milestonePlayer stdConsts 44100000 10 35, 0⟩).2.filter Event.isCallback =
        [Event.callback 7 0 4] ∧
    (SndFile_Callback stdConsts (fileEnv 100000 0)
      ⟨milestonePlayer stdConsts 44100000 10 35, 0⟩).1.player.mPlay.mFramesSincePositionUpdate
        = 5 :=
  have h := SndFile_Callback_milestone stdConsts (fileEnv 100000 0)
    ⟨milestonePlayer stdConsts 44100000 10 35, 0⟩ 10 35 (by decide) (by decide) (by decide)
    rfl rfl (by decide) (by decide) (by decide) rfl rfl
  ⟨h.1, h.2.2 5 (by decide) (by decide)⟩

/-! ### Buffer alternation -/

/-- The session record after a cycle that gets past both early returns. -/
theorem SndFile_Callback_mSndFile {D : Type} (K : Consts) (E : Env D) (w : World D)
    (hplay : w.player.mPlay.mState = K.SL_PLAYSTATE_PLAYING)
    (heof : w.player.mSndFile.mEOF = false) :
    (SndFile_Callback K E w).1.player.mSndFile =
      { w.player.mSndFile with
        mWhich := nextWhich K w.player.mSndFile.mWhich
        mEOF := !decide (0 < (E.sf_read_short w.player.mSndFile.mSNDFILE w.decoder
          K.SndFile_BUFSIZE).1) } := by
  unfold SndFile_Callback nextWhich
  dsimp only
  simp only [hplay, heof, ne_eq, not_true_eq_false, if_false, Bool.false_eq_true]
  split_ifs with h1 h2 h2 <;> simp_all

/-- The decoder reads of a cycle that gets past both early returns: one, into
the buffer `mWhich` named at entry. -/
theorem SndFile_Callback_readIndices {D : Type} (K : Consts) (E : Env D) (w : World D)
    (hplay : w.player.mPlay.mState = K.SL_PLAYSTATE_PLAYING)
    (heof : w.player.mSndFile.mEOF = false) :
    readIndices (SndFile_Callback K E w).2 = [w.player.mSndFile.mWhich] := by
  unfold SndFile_Callback
  dsimp only
  simp only [hplay, heof, ne_eq, not_true_eq_false, if_false, Bool.false_eq_true]
  split_ifs <;> simp [readIndices]

theorem nextWhich_two (K : Consts) (hK : K.SndFile_NUMBUFS = 2) (b : Nat) (hb : b < 2) :
    nextWhich K b = (b + 1) % 2 := by
  unfold nextWhich toSLuint32
  rw [hK]
  interval_cases b <;> simp

theorem runCallbacks_alternates {D : Type} (K : Consts) (E : Env D)
    (hK : K.SndFile_NUMBUFS = 2) (fs : List (World D → World D))
    (hfs : ∀ f ∈ fs, ∀ v : World D, (f v).player.mSndFile.mWhich = v.player.mSndFile.mWhich) :
    ∀ (w : World D) (b : Nat), b < 2 → w.player.mSndFile.mWhich = b →
      (∀ c ∈ runCallbacks K E fs w, decodesPositive K E c.1) →
      (runCallbacks_final K E fs w).player.mSndFile.mWhich = (b + fs.length) % 2 ∧
      (runCallbacks K E fs w).map (fun c => readIndices c.2.2) =
        (List.range fs.length).map (fun k => [(b + k) % 2]) := by
  induction fs with
  | nil =>
    intro w b hb hw _
    simp [runCallbacks, runCallbacks_final, hw, Nat.mod_eq_of_lt hb]
  | cons f fs ih =>
    intro w b hb hw hpos
    have hfw : (f w).player.mSndFile.mWhich = b := by
      rw [hfs f (List.mem_cons_self _ _) w]; exact hw
    obtain ⟨hplay, heof, _⟩ :=
      hpos (f w, (SndFile_Callback K E (f w)).1, (SndFile_Callback K E (f w)).2)
        (by simp only [runCallbacks, List.mem_cons, true_or])
    dsimp only at hplay heof
    have hnext : (SndFile_Callback K E (f w)).1.player.mSndFile.mWhich = (b + 1) % 2 := by
      rw [SndFile_Callback_mSndFile K E (f w) hplay heof]
      dsimp only
      rw [hfw, nextWhich_two K hK b hb]
    obtain ⟨ih1, ih2⟩ := ih (fun g hg => hfs g (List.mem_cons_of_mem _ hg))
      (SndFile_Callback K E (f w)).1 ((b + 1) % 2) (Nat.mod_lt _ (by decide)) hnext
      (fun c hc => hpos c (by simp only [runCallbacks, List.mem_cons]; exact Or.inr hc))
    constructor
    · simp only [runCallbacks_final, List.length_cons]
      rw [ih1]
      omega
    · simp only [runCallbacks, List.map_cons, List.length_cons, List.range_succ_eq_map,
        List.map_map]
      rw [ih2, SndFile_Callback_readIndices K E (f w) hplay heof, hfw]
      simp only [Nat.add_zero, Nat.mod_eq_of_lt hb, List.cons.injEq, true_and]
      apply List.map_congr_left
      intro k _
      simp only [Function.comp_apply, Nat.succ_eq_add_one, List.cons.injEq, and_true]
      omega

/-- C5: starting from `mWhich = 0`, after `N` consecutive `SndFile_Callback`
cycles that each decode a positive frame count (whatever the rest of the system
does to the state between them, as long as it leaves `mWhich` alone),
`mWhich` is `N mod 2`; the `k`-th cycle performs one read, into buffer index
`(k - 1) mod 2`; and no two consecutive cycles read into the same buffer
index. -/
theorem SndFile_Callback_alternation {D : Type} (K : Consts) (E : Env D)
    (hK : K.SndFile_NUMBUFS = 2) (fs : List (World D → World D))
    (hfs : ∀ f ∈ fs, ∀ v : World D, (f v).player.mSndFile.mWhich = v.player.mSndFile.mWhich)
    (w : World D) (hw : w.player.mSndFile.mWhich = 0)
    (hpos : ∀ c ∈ runCallbacks K E fs w, decodesPositive K E c.1) :
    (runCallbacks_final K E fs w).player.mSndFile.mWhich = fs.length % 2 ∧
    (∀ k : Nat, 1 ≤ k → k ≤ fs.length →
      (cycleReadIndices K E fs w)[k - 1]? = some [(k - 1) % 2]) ∧
    (∀ k : Nat, k + 1 < fs.length →
      (cycleReadIndices K E fs w)[k]? ≠ (cycleReadIndices K E fs w)[k + 1]?) := by
  obtain ⟨h1, h2⟩ := runCallbacks_alternates K E hK fs hfs w 0 (by decide) hw hpos
  simp only [Nat.zero_add] at h1 h2
  have hget : ∀ k : Nat, k < fs.length → (cycleReadIndices K E fs w)[k]? = some [k % 2] := by
    intro k hk
    unfold cycleReadIndices
    rw [h2, List.getElem?_map, List.getElem?_range hk]
    rfl
  refine ⟨h1, fun k hk1 hk2 => hget (k - 1) (by omega), fun k hk => ?_⟩
  rw [hget k (by omega), hget (k + 1) hk]
  intro h
  simp only [Option.some.injEq, List.cons.injEq, and_true] at h
  omega

/-- Witness for C5: three cycles over a long file, the mixer consuming 512
frames between them. -/
theorem SndFile_Callback_alternation_witness :
    (runCallbacks_final stdConsts (fileEnv 100000 0)
      [consumeFrames 0, consumeFrames 512, consumeFrames 512]
      ⟨examplePlayer stdConsts 1 0 false 0, 0⟩).player.mSndFile.mWhich = 1 ∧
    cycleReadIndices stdConsts (fileEnv 100000 0)
      [consumeFrames 0, consumeFrames 512, consumeFrames 512]
      ⟨examplePlayer stdConsts 1 0 false 0, 0⟩ = [[0], [1], [0]] :=
  have h := SndFile_Callback_alternation stdConsts (fileEnv 100000 0) rfl
    [consumeFrames 0, consumeFrames 512, consumeFrames 512]
    (by
      intro f hf v
      simp only [List.mem_cons, List.mem_singleton, List.not_mem_nil, or_false] at hf
      rcases hf with hf | hf | hf <;> subst hf <;> rfl)
    ⟨examplePlayer stdConsts 1 0 false 0, 0⟩ rfl
    (by
      intro c hc
      simp only [runCallbacks, List.mem_cons, List.mem_singleton, List.not_mem_nil,
        or_false] at hc
      rcases hc with hc | hc | hc <;> subst hc <;>
        exact ⟨by decide, by decide, by decide⟩)
  ⟨h.1, by decide⟩

/-! ### Position -/

theorem SndFile_Callback_position_frame (K : Consts) (mPlay : IPlay) (rate : Nat) :
    (SndFile_Callback_position K mPlay rate).1.mFramesSinceLastSeek =
      mPlay.mFramesSinceLastSeek ∧
    (SndFile_Callback_position K mPlay rate).1.mState = mPlay.mState := by
  unfold SndFile_Callback_position
  dsimp only
  split_ifs <;> exact ⟨rfl, rfl⟩

theorem SndFile_Callback_position_mPosition (K : Consts) (mPlay : IPlay) (rate : Nat)
    (hrate : rate ≠ 0) :
    (SndFile_Callback_position K mPlay rate).1.mPosition =
      toSLuint32 (toSLuint32 (mPlay.mFramesSinceLastSeek * 1000000 / rate) +
        mPlay.mLastSeekPosition) := by
  unfold SndFile_Callback_position
  dsimp only
  rw [if_pos (Ne.symm hrate)]
  split_ifs <;> rfl

/-- The position after a cycle that gets past both early returns, at a
non-zero sample rate. -/
theorem SndFile_Callback_mPosition {D : Type} (K : Consts) (E : Env D) (w : World D)
    (hplay : w.player.mPlay.mState = K.SL_PLAYSTATE_PLAYING)
    (heof : w.player.mSndFile.mEOF = false)
    (hrate : w.player.mSampleRateMilliHz ≠ 0) :
    (SndFile_Callback K E w).1.player.mPlay.mPosition =
      toSLuint32 (toSLuint32 (w.player.mPlay.mFramesSinceLastSeek * 1000000 /
        w.player.mSampleRateMilliHz) + w.player.mPlay.mLastSeekPosition) := by
  rw [SndFile_Callback_mPlay K E w hplay heof]
  split_ifs <;> exact SndFile_Callback_position_mPosition K _ _ hrate

theorem SndFile_Callback_mFramesSinceLastSeek {D : Type} (K : Consts) (E : Env D)
    (w : World D) :
    (SndFile_Callback K E w).1.player.mPlay.mFramesSinceLastSeek =
      w.player.mPlay.mFramesSinceLastSeek := by
  unfold SndFile_Callback
  dsimp only
  split_ifs <;> simp only [(SndFile_Callback_position_frame K _ _).1]

/-- Below `2 ^ 32` the two conversions of the position computation are the
identity. -/
theorem toSLuint32_position (a b : Nat) (h : a + b < 2 ^ 32) :
    toSLuint32 (toSLuint32 a + b) = a + b := by
  unfold toSLuint32
  rw [Nat.mod_eq_of_lt (by omega : a < 2 ^ 32), Nat.mod_eq_of_lt h]

/-- C6, as stated, fails: at 44.1 kHz, after a seek to 4294967000 ms, a cycle
at 0 frames leaves position 4294967000 and the next cycle, at 44100 frames, with
no seek in between and the player playing throughout, leaves position 704 (the
32-bit position has wrapped). -/
theorem SndFile_Callback_position_wraps_counterexample :
    ((positionPlayer stdConsts 4294967000 0 0).mPlay.mState = stdConsts.SL_PLAYSTATE_PLAYING ∧
     (consumeFrames 44100 (SndFile_Callback stdConsts (fileEnv 100000 0)
        ⟨positionPlayer stdConsts 4294967000 0 0, 0⟩).1).player.mPlay.mState =
          stdConsts.SL_PLAYSTATE_PLAYING ∧
     (positionPlayer stdConsts 4294967000 0 0).mSampleRateMilliHz ≠ 0) ∧
    (SndFile_Callback stdConsts (fileEnv 100000 0)
        ⟨positionPlayer stdConsts 4294967000 0 0, 0⟩).1.player.mPlay.mPosition = 4294967000 ∧
    (SndFile_Callback stdConsts (fileEnv 100000 0)
        (consumeFrames 44100 (SndFile_Callback stdConsts (fileEnv 100000 0)
          ⟨positionPlayer stdConsts 4294967000 0 0, 0⟩).1)).1.player.mPlay.mPosition = 704 ∧
    ¬ ((SndFile_Callback stdConsts (fileEnv 100000 0)
        ⟨positionPlayer stdConsts 4294967000 0 0, 0⟩).1.player.mPlay.mPosition ≤
      (SndFile_Callback stdConsts (fileEnv 100000 0)
        (consumeFrames 44100 (SndFile_Callback stdConsts (fileEnv 100000 0)
          ⟨positionPlayer stdConsts 4294967000 0 0, 0⟩).1)).1.player.mPlay.mPosition) := by
  decide

/-- C6, amended: for two consecutive `SndFile_Callback` cycles, both entered
with the play state playing, with no seek in between (the state at entry of the
later cycle has the `mEOF`, `mLastSeekPosition` and `mPosition` the earlier
cycle left), with an unchanged non-zero sample rate and a frames-since-last-seek
counter that did not decrease, and with the later cycle's position
`mFramesSinceLastSeek * 1000000 / mSampleRateMilliHz + mLastSeekPosition` below
`2 ^ 32` (no 32-bit overflow), `mPosition` after the later cycle is at least
`mPosition` after the earlier cycle. -/
theorem SndFile_Callback_position_monotone {D : Type} (K : Consts) (E : Env D)
    (w v : World D)
    (hplay : w.player.mPlay.mState = K.SL_PLAYSTATE_PLAYING)
    (hplay2 : v.player.mPlay.mState = K.SL_PLAYSTATE_PLAYING)
    (hrate : w.player.mSampleRateMilliHz ≠ 0)
    (hrate2 : v.player.mSampleRateMilliHz = w.player.mSampleRateMilliHz)
    (heof2 : v.player.mSndFile.mEOF = (SndFile_Callback K E w).1.player.mSndFile.mEOF)
    (hseek2 : v.player.mPlay.mLastSeekPosition =
      (SndFile_Callback K E w).1.player.mPlay.mLastSeekPosition)
    (hpos2 : v.player.mPlay.mPosition = (SndFile_Callback K E w).1.player.mPlay.mPosition)
    (hframes2 : (SndFile_Callback K E w).1.player.mPlay.mFramesSinceLastSeek ≤
      v.player.mPlay.mFramesSinceLastSeek)
    (hno : v.player.mPlay.mFramesSinceLastSeek * 1000000 / v.player.mSampleRateMilliHz +
      v.player.mPlay.mLastSeekPosition < 2 ^ 32) :
    (SndFile_Callback K E w).1.player.mPlay.mPosition ≤
      (SndFile_Callback K E v).1.player.mPlay.mPosition := by
  cases hv : v.player.mSndFile.mEOF with
  | true =>
    rw [SndFile_Callback_eof_fst K E v hv, hpos2]
  | false =>
    have hw : w.player.mSndFile.mEOF = false := by
      cases hw : w.player.mSndFile.mEOF with
      | false => rfl
      | true =>
        rw [SndFile_Callback_eof_fst K E w hw, hw] at heof2
        rw [heof2] at hv
        exact absurd hv (by decide)
    rw [SndFile_Callback_mLastSeekPosition] at hseek2
    rw [SndFile_Callback_mFramesSinceLastSeek] at hframes2
    rw [SndFile_Callback_mPosition K E v hplay2 hv (by rw [hrate2]; exact hrate),
      SndFile_Callback_mPosition K E w hplay hw hrate, toSLuint32_position _ _ hno]
    rw [hrate2, hseek2] at *
    have hle : w.player.mPlay.mFramesSinceLastSeek * 1000000 / w.player.mSampleRateMilliHz ≤
        v.player.mPlay.mFramesSinceLastSeek * 1000000 / w.player.mSampleRateMilliHz :=
      Nat.div_le_div_right (Nat.mul_le_mul_right _ hframes2)
    rw [toSLuint32_position _ _ (by omega)]
    omega

/-- Witness for C6: one second of frames consumed between two cycles, right
after a seek to 1000 ms. -/
theorem SndFile_Callback_position_monotone_witness :
    (SndFile_Callback stdConsts (fileEnv 100000 0)
        ⟨positionPlayer stdConsts 1000 0 0, 0⟩).1.player.mPlay.mPosition ≤
    (SndFile_Callback stdConsts (fileEnv 100000 0)
        (consumeFrames 44100 (SndFile_Callback stdConsts (fileEnv 100000 0)
          ⟨positionPlayer stdConsts 1000 0 0, 0⟩).1)).1.player.mPlay.mPosition :=
  SndFile_Callback_position_monotone stdConsts (fileEnv 100000 0)
    ⟨positionPlayer stdConsts 1000 0 0, 0⟩
    (consumeFrames 44100 (SndFile_Callback stdConsts (fileEnv 100000 0)
      ⟨positionPlayer stdConsts 1000 0 0, 0⟩).1)
    rfl rfl (by decide) rfl rfl rfl rfl (by decide) (by decide)

/-! ### Seek after exhaustion -/

theorem SndFile_Callback_notPlaying {D : Type} (K : Consts) (E : Env D) (w : World D)
    (h : w.player.mPlay.mState ≠ K.SL_PLAYSTATE_PLAYING) :
    SndFile_Callback K E w = (w, [Event.object_lock_peek, Event.object_unlock_peek]) := by
  unfold SndFile_Callback
  dsimp only
  rw [if_pos (Ne.symm h)]

theorem SndFile_Callback_decoder {D : Type} (K : Consts) (E : Env D) (w : World D)
    (hplay : w.player.mPlay.mState = K.SL_PLAYSTATE_PLAYING)
    (heof : w.player.mSndFile.mEOF = false) :
    (SndFile_Callback K E w).1.decoder =
      (E.sf_read_short w.player.mSndFile.mSNDFILE w.decoder K.SndFile_BUFSIZE).2 := by
  unfold SndFile_Callback
  dsimp only
  simp only [hplay, heof, ne_eq, not_true_eq_false, if_false, Bool.false_eq_true]
  split_ifs <;> rfl

/-- The events of reading in a cycle that gets past both early returns. -/
theorem SndFile_Callback_reads {D : Type} (K : Consts) (E : Env D) (w : World D)
    (hplay : w.player.mPlay.mState = K.SL_PLAYSTATE_PLAYING)
    (heof : w.player.mSndFile.mEOF = false) :
    (SndFile_Callback K E w).2.filter Event.isRead =
      [Event.sf_read_short w.player.mSndFile.mSNDFILE w.player.mSndFile.mWhich
        K.SndFile_BUFSIZE] := by
  unfold SndFile_Callback
  dsimp only
  simp only [hplay, heof, ne_eq, not_true_eq_false, if_false, Bool.false_eq_true]
  split_ifs <;> simp [Event.isRead]

/-- The state before the callback when a seek is pending and the trimmed
target is not the sentinel. -/
theorem audioPlayerTransportUpdate_beforeCallback_pending {D : Type} (K : Consts) (E : Env D)
    (w : World D) (hpend : w.player.mSeek.mPos ≠ K.SL_TIME_UNKNOWN)
    (htrim : min w.player.mSeek.mPos w.player.mPlay.mDuration ≠ K.SL_TIME_UNKNOWN) :
    audioPlayerTransportUpdate_beforeCallback K E w =
      { player := { w.player with
          mPrefetchStatus := { mLevel := 1000 }
          mSeek := { mPos := K.SL_TIME_UNKNOWN }
          mPlay := { w.player.mPlay with
            mLastSeekPosition := min w.player.mSeek.mPos w.player.mPlay.mDuration
            mFramesSinceLastSeek := 0
            mFramesSincePositionUpdate := 0 }
          mBufferQueue := E.IBufferQueue_Clear w.player.mBufferQueue
          mSndFile := { w.player.mSndFile with mEOF := false, mWhich := 0 } }
        decoder := E.sf_seek w.player.mSndFile.mSNDFILE w.decoder
          (seekFrames (min w.player.mSeek.mPos w.player.mPlay.mDuration)
            w.player.mSndFile.mSfInfo.samplerate) K.SEEK_SET } := by
  unfold audioPlayerTransportUpdate_beforeCallback
  rw [audioPlayerTransportUpdate_locked_pending K w.player hpend]
  unfold audioPlayerTransportUpdate_seek
  dsimp only
  rw [if_pos (Ne.symm htrim)]

/-- With an open session, a pending seek and a trimmed target that is not the
sentinel, the update is: the seek handling, then the callback. -/
theorem audioPlayerTransportUpdate_pending {D : Type} (K : Consts) (E : Env D)
    (w : World D) (hopen : NULL ≠ w.player.mSndFile.mSNDFILE)
    (hpend : w.player.mSeek.mPos ≠ K.SL_TIME_UNKNOWN)
    (htrim : min w.player.mSeek.mPos w.player.mPlay.mDuration ≠ K.SL_TIME_UNKNOWN) :
    audioPlayerTransportUpdate K E w =
      ((SndFile_Callback K E (audioPlayerTransportUpdate_beforeCallback K E w)).1,
       [Event.object_lock_exclusive, Event.object_unlock_exclusive,
        Event.IBufferQueue_Clear, Event.pthread_mutex_lock,
        Event.sf_seek w.player.mSndFile.mSNDFILE
          (seekFrames (min w.player.mSeek.mPos w.player.mPlay.mDuration)
            w.player.mSndFile.mSfInfo.samplerate) K.SEEK_SET,
        Event.write_mEOF false, Event.write_mWhich 0, Event.pthread_mutex_unlock] ++
       (SndFile_Callback K E (audioPlayerTransportUpdate_beforeCallback K E w)).2) := by
  unfold audioPlayerTransportUpdate audioPlayerTransportUpdate_beforeCallback
  rw [if_pos hopen]
  dsimp only
  rw [audioPlayerTransportUpdate_locked_pending K w.player hpend]
  unfold audioPlayerTransportUpdate_seek
  dsimp only
  rw [if_pos (Ne.symm htrim)]
  simp

/-- A target below `2 ^ 32` that is not the sentinel `0xFFFFFFFF` stays
different from the sentinel when trimmed to the duration. -/
theorem trimmed_ne_unknown (K : Consts) (hK : K.SL_TIME_UNKNOWN = 4294967295)
    (pos duration : Nat) (h32 : pos < 2 ^ 32) (hpend : pos ≠ K.SL_TIME_UNKNOWN) :
    min pos duration ≠ K.SL_TIME_UNKNOWN := by
  rw [hK] at hpend ⊢
  have : min pos duration ≤ pos := Nat.min_le_left _ _
  omega

/-- C7, as stated, fails: a player left paused and at end of stream by the
exhaustion, with an open session and a seek to 500 ms pending.  The callback
that `audioPlayerTransportUpdate` invokes performs no decoder read, and neither
does the next `SndFile_Callback` after it. -/
theorem audioPlayerTransportUpdate_paused_counterexample :
    (NULL ≠ (seekingPlayer stdConsts true 2 500).mSndFile.mSNDFILE ∧
     (seekingPlayer stdConsts true 2 500).mSndFile.mEOF = true ∧
     (seekingPlayer stdConsts true 2 500).mSeek.mPos ≠ stdConsts.SL_TIME_UNKNOWN) ∧
    (audioPlayerTransportUpdate stdConsts (fileEnv 100000 0)
      ⟨seekingPlayer stdConsts true 2 500, 0⟩).2.any Event.isRead = false ∧
    (SndFile_Callback stdConsts (fileEnv 100000 0)
      (audioPlayerTransportUpdate stdConsts (fileEnv 100000 0)
        ⟨seekingPlayer stdConsts true 2 500, 0⟩).1).2.any Event.isRead = false := by
  decide

/-- C7, amended: with an open decoder session, end of stream true and a seek
pending (a 32-bit target, the sentinel being `0xFFFFFFFF`),
`audioPlayerTransportUpdate` brings the session to a state with `mEOF` false,
`mWhich` 0 and the decoder repositioned to the new offset, and invokes
`SndFile_Callback` in that state.  When the play state is not playing, that
invocation reads nothing and the update returns in that state.  Any
`SndFile_Callback` invocation in that session and decoder state with the play
state playing performs one decoder read, into buffer 0, from the repositioned
decoder. -/
theorem audioPlayerTransportUpdate_seek_after_exhaustion {D : Type} (K : Consts) (E : Env D)
    (w : World D) (hK : K.SL_TIME_UNKNOWN = 4294967295)
    (hopen : NULL ≠ w.player.mSndFile.mSNDFILE)
    (_heof : w.player.mSndFile.mEOF = true)
    (h32 : w.player.mSeek.mPos < 2 ^ 32)
    (hpend : w.player.mSeek.mPos ≠ K.SL_TIME_UNKNOWN) :
    ((audioPlayerTransportUpdate_beforeCallback K E w).player.mSndFile.mEOF = false ∧
     (audioPlayerTransportUpdate_beforeCallback K E w).player.mSndFile.mWhich = 0 ∧
     (audioPlayerTransportUpdate_beforeCallback K E w).player.mSndFile.mSNDFILE =
        w.player.mSndFile.mSNDFILE ∧
     (audioPlayerTransportUpdate_beforeCallback K E w).player.mPlay.mState =
        w.player.mPlay.mState ∧
     (audioPlayerTransportUpdate_beforeCallback K E w).decoder =
        E.sf_seek w.player.mSndFile.mSNDFILE w.decoder
          (seekFrames (min w.player.mSeek.mPos w.player.mPlay.mDuration)
            w.player.mSndFile.mSfInfo.samplerate) K.SEEK_SET) ∧
    audioPlayerTransportUpdate K E w =
      ((SndFile_Callback K E (audioPlayerTransportUpdate_beforeCallback K E w)).1,
       [Event.object_lock_exclusive, Event.object_unlock_exclusive,
        Event.IBufferQueue_Clear, Event.pthread_mutex_lock,
        Event.sf_seek w.player.mSndFile.mSNDFILE
          (seekFrames (min w.player.mSeek.mPos w.player.mPlay.mDuration)
            w.player.mSndFile.mSfInfo.samplerate) K.SEEK_SET,
        Event.write_mEOF false, Event.write_mWhich 0, Event.pthread_mutex_unlock] ++
       (SndFile_Callback K E (audioPlayerTransportUpdate_beforeCallback K E w)).2) ∧
    (w.player.mPlay.mState ≠ K.SL_PLAYSTATE_PLAYING →
      (audioPlayerTransportUpdate K E w).1 = audioPlayerTransportUpdate_beforeCallback K E w ∧
      (audioPlayerTransportUpdate K E w).2.any Event.isRead = false) ∧
    (∀ v : World D,
      v.player.mSndFile = (audioPlayerTransportUpdate_beforeCallback K E w).player.mSndFile →
      v.decoder = (audioPlayerTransportUpdate_beforeCallback K E w).decoder →
      v.player.mPlay.mState = K.SL_PLAYSTATE_PLAYING →
      (SndFile_Callback K E v).2.filter Event.isRead =
        [Event.sf_read_short w.player.mSndFile.mSNDFILE 0 K.SndFile_BUFSIZE] ∧
      (SndFile_Callback K E v).1.decoder =
        (E.sf_read_short w.player.mSndFile.mSNDFILE
          (E.sf_seek w.player.mSndFile.mSNDFILE w.decoder
            (seekFrames (min w.player.mSeek.mPos w.player.mPlay.mDuration)
              w.player.mSndFile.mSfInfo.samplerate) K.SEEK_SET) K.SndFile_BUFSIZE).2) := by
  have htrim := trimmed_ne_unknown K hK _ w.player.mPlay.mDuration h32 hpend
  have hmid := audioPlayerTransportUpdate_beforeCallback_pending K E w hpend htrim
  have htu := audioPlayerTransportUpdate_pending K E w hopen hpend htrim
  refine ⟨?_, htu, ?_, ?_⟩
  · rw [hmid]
    exact ⟨rfl, rfl, rfl, rfl, rfl⟩
  · intro hstate
    have hst : (audioPlayerTransportUpdate_beforeCallback K E w).player.mPlay.mState ≠
        K.SL_PLAYSTATE_PLAYING := by
      rw [hmid]; exact hstate
    rw [htu, SndFile_Callback_notPlaying K E _ hst]
    exact ⟨rfl, by simp [Event.isRead]⟩
  · intro v hv hd hplay
    have heof : v.player.mSndFile.mEOF = false := by rw [hv, hmid]
    rw [SndFile_Callback_reads K E v hplay heof, SndFile_Callback_decoder K E v hplay heof,
      hv, hd, hmid]
    exact ⟨rfl, rfl⟩

/-- Witness for C7: the exhausted session, seek to 500 ms pending, the player
set to playing again: the callback reads into buffer 0. -/
theorem audioPlayerTransportUpdate_seek_after_exhaustion_witness :
    (SndFile_Callback stdConsts (fileEnv 100000 0)
      (audioPlayerTransportUpdate_beforeCallback stdConsts (fileEnv 100000 0)
        ⟨seekingPlayer stdConsts true 3 500, 0⟩)).2.filter Event.isRead =
      [Event.sf_read_short 1 0 512] :=
  ((audioPlayerTransportUpdate_seek_after_exhaustion stdConsts (fileEnv 100000 0)
    ⟨seekingPlayer stdConsts true 3 500, 0⟩ rfl (by decide) rfl (by decide) (by decide)).2.2.2
      (audioPlayerTransportUpdate_beforeCallback stdConsts (fileEnv 100000 0)
        ⟨seekingPlayer stdConsts true 3 500, 0⟩) rfl rfl (by decide)).1

/-! ### A failed submission -/

/-- With two buffers the index always moves. -/
theorem nextWhich_ne (K : Consts) (hK : K.SndFile_NUMBUFS = 2) (b : Nat) :
    nextWhich K b ≠ b := by
  unfold nextWhich toSLuint32
  rw [hK]
  norm_num
  split_ifs <;> omega

/-- C8: in a playing state that is not at end of stream, with a positive decode
count, the state `SndFile_Callback` leaves (the session record with `mWhich` and
`mEOF`, the play interface with play state, position and frame counters, the
decoder) is the same for any two behaviours of `IBufferQueue_Enqueue`, success
or failure; the player is still playing and not at end of stream, and the
following cycle performs a decoder read into the other buffer index (an index
different from the one just used; `1 - mWhich` for `mWhich` 0 or 1). -/
theorem SndFile_Callback_enqueue_failure {D : Type} (K : Consts) (E E' : Env D) (w : World D)
    (hread : E'.sf_read_short = E.sf_read_short)
    (hK : K.SndFile_NUMBUFS = 2)
    (hpos : decodesPositive K E w) :
    ((SndFile_Callback K E w).1.player.mSndFile = (SndFile_Callback K E' w).1.player.mSndFile ∧
     (SndFile_Callback K E w).1.player.mPlay = (SndFile_Callback K E' w).1.player.mPlay ∧
     (SndFile_Callback K E w).1.decoder = (SndFile_Callback K E' w).1.decoder) ∧
    ((SndFile_Callback K E' w).1.player.mPlay.mState = K.SL_PLAYSTATE_PLAYING ∧
     (SndFile_Callback K E' w).1.player.mSndFile.mEOF = false ∧
     (SndFile_Callback K E' w).1.player.mSndFile.mWhich = nextWhich K w.player.mSndFile.mWhich) ∧
    (nextWhich K w.player.mSndFile.mWhich ≠ w.player.mSndFile.mWhich ∧
     (w.player.mSndFile.mWhich < 2 →
       nextWhich K w.player.mSndFile.mWhich = 1 - w.player.mSndFile.mWhich)) ∧
    (∀ v : World D,
      v.player.mSndFile = (SndFile_Callback K E' w).1.player.mSndFile →
      v.player.mPlay.mState = (SndFile_Callback K E' w).1.player.mPlay.mState →
      (SndFile_Callback K E' v).2.filter Event.isRead =
        [Event.sf_read_short w.player.mSndFile.mSNDFILE (nextWhich K w.player.mSndFile.mWhich)
          K.SndFile_BUFSIZE]) := by
  obtain ⟨hplay, heof, hcount⟩ := hpos
  have hS : (SndFile_Callback K E' w).1.player.mSndFile =
      { w.player.mSndFile with
        mWhich := nextWhich K w.player.mSndFile.mWhich, mEOF := false } := by
    rw [SndFile_Callback_mSndFile K E' w hplay heof, hread, decide_eq_true hcount]
    rfl
  have hP : (SndFile_Callback K E' w).1.player.mPlay =
      (SndFile_Callback_position K w.player.mPlay w.player.mSampleRateMilliHz).1 := by
    rw [SndFile_Callback_mPlay K E' w hplay heof, hread, if_pos hcount]
  have hst : (SndFile_Callback K E' w).1.player.mPlay.mState = K.SL_PLAYSTATE_PLAYING := by
    rw [hP, (SndFile_Callback_position_frame K _ _).2, hplay]
  refine ⟨⟨?_, ?_, ?_⟩, ⟨hst, ?_, ?_⟩, ⟨nextWhich_ne K hK _, fun hlt => ?_⟩, ?_⟩
  · rw [SndFile_Callback_mSndFile K E w hplay heof, SndFile_Callback_mSndFile K E' w hplay heof,
      hread]
  · rw [SndFile_Callback_mPlay K E w hplay heof, SndFile_Callback_mPlay K E' w hplay heof,
      hread]
  · rw [SndFile_Callback_decoder K E w hplay heof, SndFile_Callback_decoder K E' w hplay heof,
      hread]
  · rw [hS]
  · rw [hS]
  · rw [nextWhich_two K hK _ hlt]; omega
  · intro v hv hvs
    rw [SndFile_Callback_reads K E' v (hvs.trans hst) (by rw [hv, hS]), hv, hS]

/-- Witness for C8: the same cycle with a queue that accepts and a queue that
answers with an error code; the following cycle reads into buffer 1. -/
theorem SndFile_Callback_enqueue_failure_witness :
    (SndFile_Callback stdConsts (fileEnv 100000 0)
        ⟨examplePlayer stdConsts 1 0 false 0, 0⟩).1.player.mSndFile =
      (SndFile_Callback stdConsts (fileEnv 100000 3)
        ⟨examplePlayer stdConsts 1 0 false 0, 0⟩).1.player.mSndFile ∧
    (SndFile_Callback stdConsts (fileEnv 100000 3)
      (SndFile_Callback stdConsts (fileEnv 100000 3)
        ⟨examplePlayer stdConsts 1 0 false 0, 0⟩).1).2.filter Event.isRead =
      [Event.sf_read_short 1 1 512] :=
  have h := SndFile_Callback_enqueue_failure stdConsts (fileEnv 100000 0) (fileEnv 100000 3)
    ⟨examplePlayer stdConsts 1 0 false 0, 0⟩ rfl rfl
    ⟨by decide, by decide, by decide⟩
  ⟨h.1.1, h.2.2.2 _ rfl rfl⟩

/-! ### Source validation -/

/-- C9: `SndFile_checkAudioPlayerSourceSink` returns
`SL_RESULT_PARAMETER_INVALID` for a URI locator whose URI is null,
`SL_RESULT_CONTENT_UNSUPPORTED` for a locator type that is neither
`SL_DATALOCATOR_BUFFERQUEUE` nor `SL_DATALOCATOR_URI` and for a URI locator
with a non-null URI and a format type other than `SL_DATAFORMAT_NULL` and
`SL_DATAFORMAT_MIME`, and `SL_RESULT_SUCCESS` in every other case.  (The two
locator constants are distinct, being labels of one `switch`.) -/
theorem SndFile_checkAudioPlayerSourceSink_result (K : Consts) (this : CAudioPlayer)
    (hlabels : K.SL_DATALOCATOR_BUFFERQUEUE ≠ K.SL_DATALOCATOR_URI) :
    (this.mDataSource.locatorType = K.SL_DATALOCATOR_URI → this.mDataSource.URI = none →
      (SndFile_checkAudioPlayerSourceSink K this).1 = K.SL_RESULT_PARAMETER_INVALID) ∧
    (this.mDataSource.locatorType ≠ K.SL_DATALOCATOR_BUFFERQUEUE →
      this.mDataSource.locatorType ≠ K.SL_DATALOCATOR_URI →
      (SndFile_checkAudioPlayerSourceSink K this).1 = K.SL_RESULT_CONTENT_UNSUPPORTED) ∧
    (this.mDataSource.locatorType = K.SL_DATALOCATOR_URI → this.mDataSource.URI ≠ none →
      this.mDataSource.formatType ≠ K.SL_DATAFORMAT_NULL →
      this.mDataSource.formatType ≠ K.SL_DATAFORMAT_MIME →
      (SndFile_checkAudioPlayerSourceSink K this).1 = K.SL_RESULT_CONTENT_UNSUPPORTED) ∧
    (¬ (this.mDataSource.locatorType = K.SL_DATALOCATOR_URI ∧ this.mDataSource.URI = none) →
      ¬ (this.mDataSource.locatorType ≠ K.SL_DATALOCATOR_BUFFERQUEUE ∧
          this.mDataSource.locatorType ≠ K.SL_DATALOCATOR_URI) →
      ¬ (this.mDataSource.locatorType = K.SL_DATALOCATOR_URI ∧ this.mDataSource.URI ≠ none ∧
          this.mDataSource.formatType ≠ K.SL_DATAFORMAT_NULL ∧
          this.mDataSource.formatType ≠ K.SL_DATAFORMAT_MIME) →
      (SndFile_checkAudioPlayerSourceSink K this).1 = K.SL_RESULT_SUCCESS) := by
  unfold SndFile_checkAudioPlayerSourceSink SndFile_checkAudioPlayerSourceSink_init
  dsimp only
  refine ⟨?_, ?_, ?_, ?_⟩
  · intro hl hu
    rw [if_neg (by rw [hl]; exact Ne.symm hlabels), if_pos hl, hu]
  · intro h1 h2
    rw [if_neg h1, if_neg h2]
  · intro hl hu h1 h2
    rw [if_neg (by rw [hl]; exact Ne.symm hlabels), if_pos hl]
    cases huri : this.mDataSource.URI with
    | none => exact absurd huri hu
    | some uri0 =>
      dsimp only
      rw [if_neg (by rintro (h | h); exact h1 h; exact h2 h)]
  · intro h1 h2 h3
    by_cases hb : this.mDataSource.locatorType = K.SL_DATALOCATOR_BUFFERQUEUE
    · rw [if_pos hb]
    · have hl : this.mDataSource.locatorType = K.SL_DATALOCATOR_URI := by
        by_contra hl
        exact h2 ⟨hb, hl⟩
      rw [if_neg hb, if_pos hl]
      cases huri : this.mDataSource.URI with
      | none => exact absurd ⟨hl, huri⟩ h1
      | some uri0 =>
        dsimp only
        have hf : this.mDataSource.formatType = K.SL_DATAFORMAT_NULL ∨
            this.mDataSource.formatType = K.SL_DATAFORMAT_MIME := by
          by_contra hf
          rw [not_or] at hf
          exact h3 ⟨hl, by rw [huri]; exact Option.some_ne_none _, hf.1, hf.2⟩
        rw [if_pos hf]

/-- Witness for C9: a URI locator with a null URI is a parameter error, a URI
locator with a PCM format (type 2) is unsupported content. -/
theorem SndFile_checkAudioPlayerSourceSink_result_witness :
    (SndFile_checkAudioPlayerSourceSink stdConsts (sourcePlayer 1 none 0)).1 = 2 ∧
    (SndFile_checkAudioPlayerSourceSink stdConsts (sourcePlayer 1 (some ['a']) 2)).1 = 9 :=
  ⟨(SndFile_checkAudioPlayerSourceSink_result stdConsts (sourcePlayer 1 none 0)
      (by decide)).1 rfl rfl,
   (SndFile_checkAudioPlayerSourceSink_result stdConsts (sourcePlayer 1 (some ['a']) 2)
      (by decide)).2.2.1 rfl (by decide) (by decide) (by decide)⟩

/-- C10: whenever `SndFile_checkAudioPlayerSourceSink` returns an error
(`SL_RESULT_PARAMETER_INVALID` or `SL_RESULT_CONTENT_UNSUPPORTED`, both
different from `SL_RESULT_SUCCESS`), the player is exactly as before the call;
in particular `mPathname`, `mWhich`, `mSNDFILE`, `mEOF` and
`mBufferQueue.mNumBuffers` keep their values. -/
theorem SndFile_checkAudioPlayerSourceSink_error_unchanged (K : Consts) (this : CAudioPlayer)
    (hinvalid : K.SL_RESULT_SUCCESS ≠ K.SL_RESULT_PARAMETER_INVALID)
    (hunsupported : K.SL_RESULT_SUCCESS ≠ K.SL_RESULT_CONTENT_UNSUPPORTED)
    (herr : (SndFile_checkAudioPlayerSourceSink K this).1 = K.SL_RESULT_PARAMETER_INVALID ∨
      (SndFile_checkAudioPlayerSourceSink K this).1 = K.SL_RESULT_CONTENT_UNSUPPORTED) :
    (SndFile_checkAudioPlayerSourceSink K this).2 = this ∧
    (SndFile_checkAudioPlayerSourceSink K this).2.mSndFile.mPathname = this.mSndFile.mPathname ∧
    (SndFile_checkAudioPlayerSourceSink K this).2.mSndFile.mWhich = this.mSndFile.mWhich ∧
    (SndFile_checkAudioPlayerSourceSink K this).2.mSndFile.mSNDFILE = this.mSndFile.mSNDFILE ∧
    (SndFile_checkAudioPlayerSourceSink K this).2.mSndFile.mEOF = this.mSndFile.mEOF ∧
    (SndFile_checkAudioPlayerSourceSink K this).2.mBufferQueue.mNumBuffers =
      this.mBufferQueue.mNumBuffers := by
  have hsucc : (SndFile_checkAudioPlayerSourceSink K this).1 ≠ K.SL_RESULT_SUCCESS := by
    rcases herr with h | h <;> rw [h]
    · exact Ne.symm hinvalid
    · exact Ne.symm hunsupported
  have key : (SndFile_checkAudioPlayerSourceSink K this).2 = this := by
    revert hsucc
    unfold SndFile_checkAudioPlayerSourceSink SndFile_checkAudioPlayerSourceSink_init
    dsimp only
    by_cases hb : this.mDataSource.locatorType = K.SL_DATALOCATOR_BUFFERQUEUE
    · rw [if_pos hb]
      intro h; exact absurd rfl h
    · rw [if_neg hb]
      by_cases hl : this.mDataSource.locatorType = K.SL_DATALOCATOR_URI
      · rw [if_pos hl]
        cases this.mDataSource.URI with
        | none => intro _; rfl
        | some uri0 =>
          dsimp only
          by_cases hf : this.mDataSource.formatType = K.SL_DATAFORMAT_NULL ∨
              this.mDataSource.formatType = K.SL_DATAFORMAT_MIME
          · rw [if_pos hf]
            intro h; exact absurd rfl h
          · rw [if_neg hf]
            intro _; rfl
      · rw [if_neg hl]
        intro _; rfl
  rw [key]
  exact ⟨rfl, rfl, rfl, rfl, rfl, rfl⟩

/-- Witness for C10: an address locator (type 2) is rejected and the player,
whose session fields held earlier values, is unchanged. -/
theorem SndFile_checkAudioPlayerSourceSink_error_unchanged_witness :
    (SndFile_checkAudioPlayerSourceSink stdConsts (sourcePlayer 2 none 0)).1 = 9 ∧
    (SndFile_checkAudioPlayerSourceSink stdConsts (sourcePlayer 2 none 0)).2 =
      sourcePlayer 2 none 0 :=
  ⟨by decide,
   (SndFile_checkAudioPlayerSourceSink_error_unchanged stdConsts (sourcePlayer 2 none 0)
      (by decide) (by decide) (Or.inr (by decide))).1⟩

/-- The stored path name: the URI without a leading `file:///`. -/
theorem strncmp_file_scheme (uri0 : List Char) :
    (∀ rest : List Char, uri0 = ['f', 'i', 'l', 'e', ':', '/', '/', '/'] ++ rest →
      (if strncmp_eq0 uri0 ['f', 'i', 'l', 'e', ':', '/', '/', '/'] 8 then uri0.drop 8
        else uri0) = rest) ∧
    ((¬ ∃ rest : List Char, uri0 = ['f', 'i', 'l', 'e', ':', '/', '/', '/'] ++ rest) →
      (if strncmp_eq0 uri0 ['f', 'i', 'l', 'e', ':', '/', '/', '/'] 8 then uri0.drop 8
        else uri0) = uri0) := by
  constructor
  · intro rest h
    subst h
    simp [strncmp_eq0]
  · intro h
    rw [if_neg]
    intro hc
    apply h
    refine ⟨uri0.drop 8, ?_⟩
    have ht : uri0.take 8 = ['f', 'i', 'l', 'e', ':', '/', '/', '/'] := by
      simpa [strncmp_eq0] using hc
    rw [← ht, List.take_append_drop]

/-- C11: for a URI locator that `SndFile_checkAudioPlayerSourceSink` accepts
(returns `SL_RESULT_SUCCESS` for), the URI is not null, the stored `mPathname`
is the URI without its leading 8 characters when the URI starts with
`file:///` and the URI itself otherwise, and the session is initialised with
`mWhich = 0`, a null decoder handle and `mEOF = false`.  (Hypotheses on the
constants: the two locator labels differ, the error codes differ from
success.) -/
theorem SndFile_checkAudioPlayerSourceSink_pathname (K : Consts) (this : CAudioPlayer)
    (hlabels : K.SL_DATALOCATOR_BUFFERQUEUE ≠ K.SL_DATALOCATOR_URI)
    (hinvalid : K.SL_RESULT_SUCCESS ≠ K.SL_RESULT_PARAMETER_INVALID)
    (hunsupported : K.SL_RESULT_SUCCESS ≠ K.SL_RESULT_CONTENT_UNSUPPORTED)
    (hloc : this.mDataSource.locatorType = K.SL_DATALOCATOR_URI)
    (hacc : (SndFile_checkAudioPlayerSourceSink K this).1 = K.SL_RESULT_SUCCESS) :
    ∃ uri : List Char, this.mDataSource.URI = some uri ∧
      (∀ rest : List Char, uri = ['f', 'i', 'l', 'e', ':', '/', '/', '/'] ++ rest →
        (SndFile_checkAudioPlayerSourceSink K this).2.mSndFile.mPathname = some rest) ∧
      ((¬ ∃ rest : List Char, uri = ['f', 'i', 'l', 'e', ':', '/', '/', '/'] ++ rest) →
        (SndFile_checkAudioPlayerSourceSink K this).2.mSndFile.mPathname = some uri) ∧
      (SndFile_checkAudioPlayerSourceSink K this).2.mSndFile.mWhich = 0 ∧
      (SndFile_checkAudioPlayerSourceSink K this).2.mSndFile.mSNDFILE = NULL ∧
      (SndFile_checkAudioPlayerSourceSink K this).2.mSndFile.mEOF = false := by
  revert hacc
  unfold SndFile_checkAudioPlayerSourceSink SndFile_checkAudioPlayerSourceSink_init
  dsimp only
  rw [if_neg (by rw [hloc]; exact Ne.symm hlabels), if_pos hloc]
  cases this.mDataSource.URI with
  | none => intro h; exact absurd h.symm hinvalid
  | some uri0 =>
    dsimp only
    by_cases hf : this.mDataSource.formatType = K.SL_DATAFORMAT_NULL ∨
        this.mDataSource.formatType = K.SL_DATAFORMAT_MIME
    · rw [if_pos hf]
      intro _
      refine ⟨uri0, rfl, ?_, ?_, rfl, rfl, rfl⟩
      · intro rest h
        exact congrArg some ((strncmp_file_scheme uri0).1 rest h)
      · intro h
        exact congrArg some ((strncmp_file_scheme uri0).2 h)
    · rw [if_neg hf]
      intro h; exact absurd h.symm hunsupported

/-- Witness for C11: the URI `file:///a.wav` is stored as `a.wav`. -/
theorem SndFile_checkAudioPlayerSourceSink_pathname_witness :
    (SndFile_checkAudioPlayerSourceSink stdConsts
      (sourcePlayer 1 (some ['f', 'i', 'l', 'e', ':', '/', '/', '/', 'a', '.', 'w', 'a', 'v'])
        0)).2.mSndFile.mPathname = some ['a', '.', 'w', 'a', 'v'] :=
  Exists.elim
    (SndFile_checkAudioPlayerSourceSink_pathname stdConsts
      (sourcePlayer 1 (some ['f', 'i', 'l', 'e', ':', '/', '/', '/', 'a', '.', 'w', 'a', 'v'])
        0) (by decide) (by decide) (by decide) rfl rfl)
    (fun uri h => h.2.1 ['a', '.', 'w', 'a', 'v'] (Option.some.inj h.1.symm))

/-! ### The cycle when not playing -/

/-- C12: when the play state is not `SL_PLAYSTATE_PLAYING` (stopped or paused),
`SndFile_Callback` returns with the state unchanged: the events are the peek of
the play state only, so no decoder read, no submission to the queue and no
callback; `mWhich`, `mEOF`, `mPosition` and `mFramesSincePositionUpdate` are
unchanged. -/
theorem SndFile_Callback_not_playing_unchanged {D : Type} (K : Consts) (E : Env D)
    (w : World D) (hstate : w.player.mPlay.mState ≠ K.SL_PLAYSTATE_PLAYING) :
    (SndFile_Callback K E w).1 = w ∧
    (SndFile_Callback K E w).2 = [Event.object_lock_peek, Event.object_unlock_peek] ∧
    (SndFile_Callback K E w).2.any Event.isRead = false ∧
    (SndFile_Callback K E w).2.any Event.isEnqueue = false ∧
    (SndFile_Callback K E w).2.any Event.isCallback = false ∧
    (SndFile_Callback K E w).1.player.mSndFile.mWhich = w.player.mSndFile.mWhich ∧
    (SndFile_Callback K E w).1.player.mSndFile.mEOF = w.player.mSndFile.mEOF ∧
    (SndFile_Callback K E w).1.player.mPlay.mPosition = w.player.mPlay.mPosition ∧
    (SndFile_Callback K E w).1.player.mPlay.mFramesSincePositionUpdate =
      w.player.mPlay.mFramesSincePositionUpdate := by
  rw [SndFile_Callback_notPlaying K E w hstate]
  exact ⟨rfl, rfl, rfl, rfl, rfl, rfl, rfl, rfl, rfl⟩

/-- Witness for C12: a paused player over a long file, with a milestone due. -/
theorem SndFile_Callback_not_playing_unchanged_witness :
    (SndFile_Callback stdConsts (fileEnv 100000 0)
      (setPlayState 2 ⟨milestonePlayer stdConsts 44100000 10 35, 0⟩)).2 =
      [Event.object_lock_peek, Event.object_unlock_peek] :=
  (SndFile_Callback_not_playing_unchanged stdConsts (fileEnv 100000 0)
    (setPlayState 2 ⟨milestonePlayer stdConsts 44100000 10 35, 0⟩) (by decide)).2.1

/-! ### A null decoder handle -/

theorem lastRead_append {D : Type} (E : Env D) (b : Bool) (es fs : List Event) :
    ∀ s : D × Option Int, lastRead E b (es ++ fs) s = lastRead E b fs (lastRead E b es s) := by
  induction es with
  | nil => intro s; rfl
  | cons e es ih =>
    intro s
    cases e <;> simp only [List.cons_append, lastRead, List.append_eq, ih]

/-- The record after a cycle: the read of a cycle that gets past both early
returns, and the record as it was otherwise. -/
theorem lastRead_SndFile_Callback {D : Type} (K : Consts) (E : Env D) (b : Bool) (w : World D)
    (g : Option Int) :
    lastRead E b (SndFile_Callback K E w).2 (w.decoder, g) =
      if w.player.mPlay.mState = K.SL_PLAYSTATE_PLAYING ∧ w.player.mSndFile.mEOF = false then
        ((E.sf_read_short w.player.mSndFile.mSNDFILE w.decoder K.SndFile_BUFSIZE).2,
         some (E.sf_read_short w.player.mSndFile.mSNDFILE w.decoder K.SndFile_BUFSIZE).1)
      else (w.decoder, g) := by
  by_cases hplay : w.player.mPlay.mState = K.SL_PLAYSTATE_PLAYING
  · cases heof : w.player.mSndFile.mEOF with
    | true =>
      unfold SndFile_Callback
      dsimp only
      simp [hplay, heof, lastRead]
    | false =>
      unfold SndFile_Callback
      dsimp only
      simp only [hplay, heof, ne_eq, not_true_eq_false, if_false, Bool.false_eq_true, and_self,
        if_true]
      split_ifs <;> simp [lastRead]
  · rw [SndFile_Callback_notPlaying K E w hplay]
    simp [hplay, lastRead]

theorem lastReadExhausted_some (c : Int) : lastReadExhausted (some c) ↔ c ≤ 0 := by
  unfold lastReadExhausted
  constructor
  · rintro ⟨d, hd, hle⟩
    rw [Option.some.inj hd]; exact hle
  · intro h; exact ⟨c, rfl, h⟩

theorem lastReadExhausted_none : ¬ lastReadExhausted none := by
  rintro ⟨d, hd, _⟩
  exact absurd hd (by simp)

/-- A cycle keeps the flag and the record in step, and the replay ends in the
library state the cycle ends in. -/
theorem SndFile_Callback_keeps_record {D : Type} (K : Consts) (E : Env D) (b : Bool)
    (w : World D) (g : Option Int)
    (h : w.player.mSndFile.mEOF = true ↔ lastReadExhausted g) :
    ((SndFile_Callback K E w).1.player.mSndFile.mEOF = true ↔
      lastReadExhausted (lastRead E b (SndFile_Callback K E w).2 (w.decoder, g)).2) := by
  rw [lastRead_SndFile_Callback]
  by_cases hplay : w.player.mPlay.mState = K.SL_PLAYSTATE_PLAYING
  · cases heof : w.player.mSndFile.mEOF with
    | true =>
      rw [SndFile_Callback_eof_fst K E w heof, if_neg (by simp [heof]), heof]
      rw [heof] at h
      exact h
    | false =>
      rw [if_pos ⟨hplay, rfl⟩, SndFile_Callback_mSndFile K E w hplay heof]
      dsimp only
      rw [lastReadExhausted_some]
      simp
  · rw [SndFile_Callback_notPlaying K E w hplay, if_neg (fun hc => hplay hc.1)]
    exact h

theorem audioPlayerTransportUpdate_locked_mSndFile (K : Consts) (audioPlayer : CAudioPlayer) :
    (audioPlayerTransportUpdate_locked K audioPlayer).1.mSndFile = audioPlayer.mSndFile := by
  unfold audioPlayerTransportUpdate_locked
  dsimp only
  split_ifs <;> rfl

/-- A transport update keeps the flag and the record of the most recent read
since the last seek in step. -/
theorem audioPlayerTransportUpdate_keeps_record {D : Type} (K : Consts) (E : Env D)
    (w : World D) (g : Option Int)
    (h : w.player.mSndFile.mEOF = true ↔ lastReadExhausted g) :
    ((audioPlayerTransportUpdate K E w).1.player.mSndFile.mEOF = true ↔
      lastReadExhausted (lastRead E true (audioPlayerTransportUpdate K E w).2
        (w.decoder, g)).2) := by
  have hS := audioPlayerTransportUpdate_locked_mSndFile K w.player
  unfold audioPlayerTransportUpdate
  by_cases hopen : NULL ≠ w.player.mSndFile.mSNDFILE
  · rw [if_pos hopen]
    unfold audioPlayerTransportUpdate_seek
    dsimp only
    by_cases hseek : K.SL_TIME_UNKNOWN ≠ (audioPlayerTransportUpdate_locked K w.player).2
    · simp only [if_pos hseek, if_true]
      rw [lastRead_append]
      exact SndFile_Callback_keeps_record K E true _ none
        (by constructor
            · intro hc; exact absurd hc (by simp)
            · intro hc; exact absurd hc lastReadExhausted_none)
    · simp only [if_neg hseek]
      split_ifs
      · rw [lastRead_append]
        exact SndFile_Callback_keeps_record K E true
          { w with player := (audioPlayerTransportUpdate_locked K w.player).1 } g
          (by dsimp only; rw [hS]; exact h)
      · dsimp only [List.append_nil]
        rw [hS]
        exact h
  · rw [if_neg hopen]
    exact h

theorem runActions_keeps_record {D : Type} (K : Consts) (E : Env D) (acts : List (Action D))
    (hadm : ∀ a ∈ acts, a.keepsEOF) :
    ∀ s : World D × Option Int,
      (s.1.player.mSndFile.mEOF = true ↔ lastReadExhausted s.2) →
      ((runActions K E true acts s).1.player.mSndFile.mEOF = true ↔
        lastReadExhausted (runActions K E true acts s).2) := by
  induction acts with
  | nil => intro s h; exact h
  | cons a acts ih =>
    intro s h
    have ih' := ih (fun c hc => hadm c (List.mem_cons_of_mem _ hc))
    cases a with
    | callback =>
      exact ih' _ (SndFile_Callback_keeps_record K E true s.1 s.2 h)
    | transportUpdate =>
      exact ih' _ (audioPlayerTransportUpdate_keeps_record K E s.1 s.2 h)
    | environment f =>
      have hf : ∀ w : World D, (f w).player.mSndFile.mEOF = w.player.mSndFile.mEOF :=
        hadm (Action.environment f) (List.mem_cons_self _ _)
      exact ih' (f s.1, s.2) (by dsimp only; rw [hf]; exact h)

theorem SndFile_checkAudioPlayerSourceSink_success_mEOF (K : Consts) (this : CAudioPlayer)
    (hinvalid : K.SL_RESULT_SUCCESS ≠ K.SL_RESULT_PARAMETER_INVALID)
    (hunsupported : K.SL_RESULT_SUCCESS ≠ K.SL_RESULT_CONTENT_UNSUPPORTED)
    (hacc : (SndFile_checkAudioPlayerSourceSink K this).1 = K.SL_RESULT_SUCCESS) :
    (SndFile_checkAudioPlayerSourceSink K this).2.mSndFile.mEOF = false := by
  revert hacc
  unfold SndFile_checkAudioPlayerSourceSink SndFile_checkAudioPlayerSourceSink_init
  dsimp only
  by_cases hb : this.mDataSource.locatorType = K.SL_DATALOCATOR_BUFFERQUEUE
  · rw [if_pos hb]
    intro _; rfl
  · rw [if_neg hb]
    by_cases hl : this.mDataSource.locatorType = K.SL_DATALOCATOR_URI
    · rw [if_pos hl]
      cases this.mDataSource.URI with
      | none => intro h; exact absurd h.symm hinvalid
      | some uri0 =>
        dsimp only
        by_cases hf : this.mDataSource.formatType = K.SL_DATAFORMAT_NULL ∨
            this.mDataSource.formatType = K.SL_DATAFORMAT_MIME
        · rw [if_pos hf]
          intro _; rfl
        · rw [if_neg hf]
          intro h; exact absurd h.symm hunsupported
    · rw [if_neg hl]
      intro h; exact absurd h.symm hunsupported

/-- At end of stream and with no seek pending, a transport update reads
nothing and leaves the flag set. -/
theorem audioPlayerTransportUpdate_eof_no_seek {D : Type} (K : Consts) (E : Env D)
    (v : World D) (heof : v.player.mSndFile.mEOF = true)
    (hno : v.player.mSeek.mPos = K.SL_TIME_UNKNOWN) :
    (audioPlayerTransportUpdate K E v).2.any Event.isRead = false ∧
    (audioPlayerTransportUpdate K E v).1.player.mSndFile.mEOF = true := by
  have hL : audioPlayerTransportUpdate_locked K v.player =
      ({ v.player with mPrefetchStatus := { mLevel := 1000 } }, K.SL_TIME_UNKNOWN) := by
    unfold audioPlayerTransportUpdate_locked
    dsimp only
    rw [if_neg (by rw [hno]; exact fun h => h rfl), hno]
  unfold audioPlayerTransportUpdate
  by_cases hopen : NULL ≠ v.player.mSndFile.mSNDFILE
  · rw [if_pos hopen, hL]
    unfold audioPlayerTransportUpdate_seek
    dsimp only
    simp only [ne_eq, not_true_eq_false, if_false]
    have hmid : ({ v with player :=
        { v.player with mPrefetchStatus := { mLevel := 1000 } } } : World D).player.mSndFile.mEOF
        = true := heof
    split_ifs
    · constructor
      · rw [List.any_append, SndFile_Callback_eof_noRead K E _ hmid]
        rfl
      · rw [SndFile_Callback_eof_fst K E _ hmid]
        exact heof
    · exact ⟨rfl, heof⟩
  · rw [if_neg hopen]
    exact ⟨rfl, heof⟩

/-- C14, as stated, fails: a validated session is opened and played, the first
read returns zero (the flag is set and the player paused), then a seek to
500 ms is requested and handled.  The flag is now false although the most
recent decoder read returned zero. -/
theorem session_mEOF_after_seek_counterexample :
    ((SndFile_checkAudioPlayerSourceSink stdConsts (sourcePlayer 1 (some ['a']) 0)).1 =
        stdConsts.SL_RESULT_SUCCESS ∧
     (∀ w : World Nat, (openAndPlay stdConsts 1 w).player.mSndFile.mEOF =
        w.player.mSndFile.mEOF) ∧
     (∀ w : World Nat, (requestSeek 500 w).player.mSndFile.mEOF = w.player.mSndFile.mEOF)) ∧
    (runActions stdConsts (fileEnv 0 0) false
      [Action.environment (openAndPlay stdConsts 1), Action.callback,
       Action.environment (requestSeek 500), Action.transportUpdate]
      (⟨(SndFile_checkAudioPlayerSourceSink stdConsts (sourcePlayer 1 (some ['a']) 0)).2, 0⟩,
       none)).1.player.mSndFile.mEOF = false ∧
    (runActions stdConsts (fileEnv 0 0) false
      [Action.environment (openAndPlay stdConsts 1), Action.callback,
       Action.environment (requestSeek 500), Action.transportUpdate]
      (⟨(SndFile_checkAudioPlayerSourceSink stdConsts (sourcePlayer 1 (some ['a']) 0)).2, 0⟩,
       none)).2 = some 0 :=
  ⟨⟨by decide, fun _ => rfl, fun _ => rfl⟩, by decide, by decide⟩

/-- C14, amended: in every state reachable from a successfully validated
session by any sequence of `SndFile_Callback` calls, `audioPlayerTransportUpdate`
calls and steps of the rest of the system that leave `mEOF` alone, `mEOF` is
true if and only if there has been a decoder read since the last seek (or since
validation) and the most recent one returned a count that is zero or negative;
and in any state with `mEOF` true, `SndFile_Callback` performs no decoder read
and leaves `mEOF` true, and so does `audioPlayerTransportUpdate` unless a seek
is pending. -/
theorem session_mEOF_history {D : Type} (K : Consts) (E : Env D) (this : CAudioPlayer) (d : D)
    (acts : List (Action D))
    (hinvalid : K.SL_RESULT_SUCCESS ≠ K.SL_RESULT_PARAMETER_INVALID)
    (hunsupported : K.SL_RESULT_SUCCESS ≠ K.SL_RESULT_CONTENT_UNSUPPORTED)
    (hacc : (SndFile_checkAudioPlayerSourceSink K this).1 = K.SL_RESULT_SUCCESS)
    (hadm : ∀ a ∈ acts, a.keepsEOF) :
    ((runActions K E true acts
        (⟨(SndFile_checkAudioPlayerSourceSink K this).2, d⟩, none)).1.player.mSndFile.mEOF = true ↔
      lastReadExhausted (runActions K E true acts
        (⟨(SndFile_checkAudioPlayerSourceSink K this).2, d⟩, none)).2) ∧
    (∀ v : World D, v.player.mSndFile.mEOF = true →
      ((SndFile_Callback K E v).2.any Event.isRead = false ∧
       (SndFile_Callback K E v).1.player.mSndFile.mEOF = true) ∧
      (v.player.mSeek.mPos = K.SL_TIME_UNKNOWN →
        (audioPlayerTransportUpdate K E v).2.any Event.isRead = false ∧
        (audioPlayerTransportUpdate K E v).1.player.mSndFile.mEOF = true)) := by
  refine ⟨runActions_keeps_record K E acts hadm _ ?_, fun v hv => ⟨⟨?_, ?_⟩, ?_⟩⟩
  · dsimp only
    rw [SndFile_checkAudioPlayerSourceSink_success_mEOF K this hinvalid hunsupported hacc]
    constructor
    · intro hc; exact absurd hc (by simp)
    · intro hc; exact absurd hc lastReadExhausted_none
  · exact SndFile_Callback_eof_noRead K E v hv
  · rw [SndFile_Callback_eof_fst K E v hv]; exact hv
  · exact audioPlayerTransportUpdate_eof_no_seek K E v hv

/-- Witness for C14: a validated session is opened and played and the first
read returns zero; the flag is set and the record shows the exhausted read. -/
theorem session_mEOF_history_witness :
    lastReadExhausted (runActions stdConsts (fileEnv 0 0) true
      [Action.environment (openAndPlay stdConsts 1), Action.callback]
      (⟨(SndFile_checkAudioPlayerSourceSink stdConsts (sourcePlayer 1 (some ['a']) 0)).2, 0⟩,
       none)).2 :=
  (session_mEOF_history stdConsts (fileEnv 0 0) (sourcePlayer 1 (some ['a']) 0) 0
    [Action.environment (openAndPlay stdConsts 1), Action.callback]
    (by decide) (by decide) (by decide)
    (by
      intro a ha
      simp only [List.mem_cons, List.mem_singleton, List.not_mem_nil, or_false] at ha
      rcases ha with ha | ha <;> subst ha
      · exact fun _ => rfl
      · exact trivial)).1.mp (by decide)

/-! ### When a milestone is due -/

theorem SndFile_Callback_position_due (K : Consts) (mPlay : IPlay) (rate : Nat)
    (hrate : rate ≠ 0) :
    ((SndFile_Callback_position K mPlay rate).2 = true ↔
      (mPlay.mFrameUpdatePeriod ≠ 0 ∧
       mPlay.mFramesSincePositionUpdate ≥ mPlay.mFrameUpdatePeriod ∧
       K.SL_PLAYEVENT_HEADATNEWPOS &&& mPlay.mEventFlags ≠ 0)) ∧
    (SndFile_Callback_position K mPlay rate).1.mFramesSincePositionUpdate =
      if mPlay.mFrameUpdatePeriod ≠ 0 ∧
          mPlay.mFramesSincePositionUpdate ≥ mPlay.mFrameUpdatePeriod ∧
          K.SL_PLAYEVENT_HEADATNEWPOS &&& mPlay.mEventFlags ≠ 0 then
        if mPlay.mFramesSincePositionUpdate - mPlay.mFrameUpdatePeriod ≥
            mPlay.mFrameUpdatePeriod then
          (mPlay.mFramesSincePositionUpdate - mPlay.mFrameUpdatePeriod) %
            mPlay.mFrameUpdatePeriod
        else mPlay.mFramesSincePositionUpdate - mPlay.mFrameUpdatePeriod
      else mPlay.mFramesSincePositionUpdate := by
  unfold SndFile_Callback_position
  dsimp only
  rw [if_pos (Ne.symm hrate)]
  by_cases hc : mPlay.mFrameUpdatePeriod ≠ 0 ∧
      mPlay.mFramesSincePositionUpdate ≥ mPlay.mFrameUpdatePeriod ∧
      K.SL_PLAYEVENT_HEADATNEWPOS &&& mPlay.mEventFlags ≠ 0
  · rw [if_pos ⟨Ne.symm hc.1, hc.2⟩, if_pos hc]
    exact ⟨⟨fun _ => hc, fun _ => rfl⟩, rfl⟩
  · rw [if_neg (fun h => hc ⟨Ne.symm h.1, h.2⟩), if_neg hc]
    exact ⟨⟨fun h => absurd h (by simp), fun h => absurd h hc⟩, rfl⟩

/-- C15, as stated, fails: at sample rate zero, with a period of 480 frames,
1000 frames since the last update and milestones enabled, the cycle (playing,
not at end of stream) marks no milestone, invokes no callback and leaves the
counter at 1000; one period less, folded, would be 40. -/
theorem SndFile_Callback_due_zero_rate_counterexample :
    ((milestonePlayer stdConsts 0 480 1000).mPlay.mState = stdConsts.SL_PLAYSTATE_PLAYING ∧
     (milestonePlayer stdConsts 0 480 1000).mSndFile.mEOF = false ∧
     (milestonePlayer stdConsts 0 480 1000).mSampleRateMilliHz = 0 ∧
     (milestonePlayer stdConsts 0 480 1000).mPlay.mFrameUpdatePeriod ≠ 0 ∧
     (milestonePlayer stdConsts 0 480 1000).mPlay.mFramesSincePositionUpdate ≥
       (milestonePlayer stdConsts 0 480 1000).mPlay.mFrameUpdatePeriod ∧
     stdConsts.SL_PLAYEVENT_HEADATNEWPOS &&&
       (milestonePlayer stdConsts 0 480 1000).mPlay.mEventFlags ≠ 0) ∧
    (SndFile_Callback_position stdConsts (milestonePlayer stdConsts 0 480 1000).mPlay
      (milestonePlayer stdConsts 0 480 1000).mSampleRateMilliHz).2 = false ∧
    (SndFile_Callback stdConsts (fileEnv 100000 0)
      ⟨milestonePlayer stdConsts 0 480 1000, 0⟩).2.any Event.isCallback = false ∧
    (SndFile_Callback stdConsts (fileEnv 100000 0)
      ⟨milestonePlayer stdConsts 0 480 1000, 0⟩).1.player.mPlay.mFramesSincePositionUpdate
        = 1000 ∧
    (1000 - 480) % 480 = 40 := by
  decide

/-- C15, amended: in every playing cycle that is not at end of stream, at a
non-zero sample rate a milestone is marked due (the local `headAtNewPos`)
exactly when `mFrameUpdatePeriod != 0`, `mFramesSincePositionUpdate >=
mFrameUpdatePeriod` and `SL_PLAYEVENT_HEADATNEWPOS` is enabled in `mEventFlags`;
in that case frames-since-update is decremented by one period and then reduced
modulo the period if still `>=` the period, and otherwise it is left unchanged.
At sample rate zero no milestone is marked and frames-since-update is left
unchanged. -/
theorem SndFile_Callback_milestone_due {D : Type} (K : Consts) (E : Env D) (w : World D)
    (hplay : w.player.mPlay.mState = K.SL_PLAYSTATE_PLAYING)
    (heof : w.player.mSndFile.mEOF = false) :
    (w.player.mSampleRateMilliHz ≠ 0 →
      ((SndFile_Callback_position K w.player.mPlay w.player.mSampleRateMilliHz).2 = true ↔
        (w.player.mPlay.mFrameUpdatePeriod ≠ 0 ∧
         w.player.mPlay.mFramesSincePositionUpdate ≥ w.player.mPlay.mFrameUpdatePeriod ∧
         K.SL_PLAYEVENT_HEADATNEWPOS &&& w.player.mPlay.mEventFlags ≠ 0)) ∧
      (SndFile_Callback K E w).1.player.mPlay.mFramesSincePositionUpdate =
        if w.player.mPlay.mFrameUpdatePeriod ≠ 0 ∧
            w.player.mPlay.mFramesSincePositionUpdate ≥ w.player.mPlay.mFrameUpdatePeriod ∧
            K.SL_PLAYEVENT_HEADATNEWPOS &&& w.player.mPlay.mEventFlags ≠ 0 then
          if w.player.mPlay.mFramesSincePositionUpdate - w.player.mPlay.mFrameUpdatePeriod ≥
              w.player.mPlay.mFrameUpdatePeriod then
            (w.player.mPlay.mFramesSincePositionUpdate - w.player.mPlay.mFrameUpdatePeriod) %
              w.player.mPlay.mFrameUpdatePeriod
          else w.player.mPlay.mFramesSincePositionUpdate - w.player.mPlay.mFrameUpdatePeriod
        else w.player.mPlay.mFramesSincePositionUpdate) ∧
    (w.player.mSampleRateMilliHz = 0 →
      (SndFile_Callback_position K w.player.mPlay w.player.mSampleRateMilliHz).2 = false ∧
      (SndFile_Callback K E w).1.player.mPlay.mFramesSincePositionUpdate =
        w.player.mPlay.mFramesSincePositionUpdate) ∧
    (SndFile_Callback K E w).2.filter Event.isCallback =
      (if NULL ≠ w.player.mPlay.mCallback ∧
          (SndFile_Callback_position K w.player.mPlay w.player.mSampleRateMilliHz).2 = true then
        [Event.callback w.player.mPlay.mCallback w.player.mPlay.mContext
          K.SL_PLAYEVENT_HEADATNEWPOS]
      else []) := by
  have hF : (SndFile_Callback K E w).1.player.mPlay.mFramesSincePositionUpdate =
      (SndFile_Callback_position K w.player.mPlay
        w.player.mSampleRateMilliHz).1.mFramesSincePositionUpdate := by
    rw [SndFile_Callback_mPlay K E w hplay heof]
    split_ifs <;> rfl
  refine ⟨fun hrate => ?_, fun hrate => ?_, SndFile_Callback_callbacks K E w hplay heof⟩
  · rw [hF]
    exact SndFile_Callback_position_due K w.player.mPlay _ hrate
  · rw [hF, hrate, SndFile_Callback_position_zero_rate]
    exact ⟨rfl, rfl⟩

/-- Witness for C15: at 44.1 kHz, a period of 480 frames and 1000 frames since
the last update leave 40. -/
theorem SndFile_Callback_milestone_due_witness :
    (SndFile_Callback stdConsts (fileEnv 100000 0)
      ⟨milestonePlayer stdConsts 44100000 480 1000, 0⟩).1.player.mPlay.mFramesSincePositionUpdate
        = 40 :=
  ((SndFile_Callback_milestone_due stdConsts (fileEnv 100000 0)
    ⟨milestonePlayer stdConsts 44100000 480 1000, 0⟩ rfl rfl).1 (by decide)).2.trans (by decide)

/-! ### What a seek resets -/

theorem SndFile_Callback_mSeek {D : Type} (K : Consts) (E : Env D) (w : World D) :
    (SndFile_Callback K E w).1.player.mSeek = w.player.mSeek := by
  unfold SndFile_Callback
  dsimp only
  split_ifs <;> rfl

theorem SndFile_Callback_position_fresh (K : Consts) (mPlay : IPlay) (rate : Nat)
    (h : mPlay.mFramesSincePositionUpdate = 0) :
    (SndFile_Callback_position K mPlay rate).2 = false ∧
    (SndFile_Callback_position K mPlay rate).1.mFramesSincePositionUpdate = 0 := by
  have hc : ¬ (0 ≠ mPlay.mFrameUpdatePeriod ∧
      mPlay.mFramesSincePositionUpdate ≥ mPlay.mFrameUpdatePeriod ∧
      K.SL_PLAYEVENT_HEADATNEWPOS &&& mPlay.mEventFlags ≠ 0) := by
    rintro ⟨h1, h2, _⟩
    rw [h] at h2
    exact h1 (Nat.le_zero.mp h2).symm
  unfold SndFile_Callback_position
  dsimp only
  rw [if_neg hc]
  split_ifs
  · exact ⟨rfl, h⟩
  · exact ⟨rfl, h⟩

/-- A cycle entered with no frames since the last position update invokes no
callback and leaves the counter at zero. -/
theorem SndFile_Callback_fresh {D : Type} (K : Consts) (E : Env D) (w : World D)
    (h : w.player.mPlay.mFramesSincePositionUpdate = 0) :
    (SndFile_Callback K E w).1.player.mPlay.mFramesSincePositionUpdate = 0 ∧
    (SndFile_Callback K E w).2.filter Event.isCallback = [] := by
  have hp := SndFile_Callback_position_fresh K w.player.mPlay w.player.mSampleRateMilliHz h
  by_cases hplay : w.player.mPlay.mState = K.SL_PLAYSTATE_PLAYING
  · cases heof : w.player.mSndFile.mEOF with
    | true =>
      constructor
      · rw [SndFile_Callback_eof_fst K E w heof]; exact h
      · unfold SndFile_Callback
        dsimp only
        simp [hplay, heof, Event.isCallback]
    | false =>
      constructor
      · rw [SndFile_Callback_mPlay K E w hplay heof]
        split_ifs
        · exact hp.2
        · exact hp.2
      · rw [SndFile_Callback_callbacks K E w hplay heof, if_neg]
        rw [hp.1]
        exact fun hc => absurd hc.2 (by simp)
  · rw [SndFile_Callback_notPlaying K E w hplay]
    exact ⟨h, rfl⟩

theorem audioPlayerTransportUpdate_seek_frame {D : Type} (K : Consts) (E : Env D)
    (w : World D) (pos : Nat) (empty : Bool) :
    (audioPlayerTransportUpdate_seek K E w pos empty).1.player.mSeek = w.player.mSeek ∧
    (audioPlayerTransportUpdate_seek K E w pos empty).2.1.filter Event.isCallback = [] := by
  unfold audioPlayerTransportUpdate_seek
  dsimp only
  split_ifs <;> exact ⟨rfl, rfl⟩

theorem audioPlayerTransportUpdate_locked_none (K : Consts) (audioPlayer : CAudioPlayer)
    (hno : audioPlayer.mSeek.mPos = K.SL_TIME_UNKNOWN) :
    audioPlayerTransportUpdate_locked K audioPlayer =
      ({ audioPlayer with mPrefetchStatus := { mLevel := 1000 } }, K.SL_TIME_UNKNOWN) := by
  unfold audioPlayerTransportUpdate_locked
  dsimp only
  rw [if_neg (by rw [hno]; exact fun h => h rfl), hno]

theorem audioPlayerTransportUpdate_beforeCallback_none {D : Type} (K : Consts) (E : Env D)
    (w : World D) (hno : w.player.mSeek.mPos = K.SL_TIME_UNKNOWN) :
    audioPlayerTransportUpdate_beforeCallback K E w =
      { w with player := { w.player with mPrefetchStatus := { mLevel := 1000 } } } := by
  unfold audioPlayerTransportUpdate_beforeCallback
  rw [audioPlayerTransportUpdate_locked_none K w.player hno]
  unfold audioPlayerTransportUpdate_seek
  dsimp only
  rw [if_neg (fun h => h rfl)]

/-- C16: with an open decoder session and a pending seek,
`audioPlayerTransportUpdate` clears the pending seek to `SL_TIME_UNKNOWN` and
sets `mFramesSinceLastSeek` and `mFramesSincePositionUpdate` to zero, and no
milestone callback is invoked during the update (the refill included).  With
no seek pending, the state in which the update reaches its final test of
`empty` has the `mLastSeekPosition`, `mFramesSinceLastSeek`,
`mFramesSincePositionUpdate`, `mEOF` and `mWhich` of the state at entry, and the
update ends there or with the refill from there. -/
theorem audioPlayerTransportUpdate_seek_resets {D : Type} (K : Consts) (E : Env D)
    (w : World D) (hopen : NULL ≠ w.player.mSndFile.mSNDFILE) :
    (w.player.mSeek.mPos ≠ K.SL_TIME_UNKNOWN →
      (audioPlayerTransportUpdate K E w).1.player.mSeek.mPos = K.SL_TIME_UNKNOWN ∧
      (audioPlayerTransportUpdate K E w).1.player.mPlay.mFramesSinceLastSeek = 0 ∧
      (audioPlayerTransportUpdate K E w).1.player.mPlay.mFramesSincePositionUpdate = 0 ∧
      (audioPlayerTransportUpdate K E w).2.filter Event.isCallback = []) ∧
    (w.player.mSeek.mPos = K.SL_TIME_UNKNOWN →
      ((audioPlayerTransportUpdate_beforeCallback K E w).player.mPlay.mLastSeekPosition =
          w.player.mPlay.mLastSeekPosition ∧
       (audioPlayerTransportUpdate_beforeCallback K E w).player.mPlay.mFramesSinceLastSeek =
          w.player.mPlay.mFramesSinceLastSeek ∧
       (audioPlayerTransportUpdate_beforeCallback K E w).player.mPlay.mFramesSincePositionUpdate =
          w.player.mPlay.mFramesSincePositionUpdate ∧
       (audioPlayerTransportUpdate_beforeCallback K E w).player.mSndFile.mEOF =
          w.player.mSndFile.mEOF ∧
       (audioPlayerTransportUpdate_beforeCallback K E w).player.mSndFile.mWhich =
          w.player.mSndFile.mWhich) ∧
      (audioPlayerTransportUpdate K E w =
          (audioPlayerTransportUpdate_beforeCallback K E w,
           [Event.object_lock_exclusive, Event.object_unlock_exclusive]) ∨
       audioPlayerTransportUpdate K E w =
          ((SndFile_Callback K E (audioPlayerTransportUpdate_beforeCallback K E w)).1,
           [Event.object_lock_exclusive, Event.object_unlock_exclusive] ++
             (SndFile_Callback K E (audioPlayerTransportUpdate_beforeCallback K E w)).2))) := by
  constructor
  · intro hpend
    have hL := audioPlayerTransportUpdate_locked_pending K w.player hpend
    have hmid : (audioPlayerTransportUpdate_beforeCallback K E w).player.mSeek.mPos =
          K.SL_TIME_UNKNOWN ∧
        (audioPlayerTransportUpdate_beforeCallback K E w).player.mPlay.mFramesSinceLastSeek = 0 ∧
        (audioPlayerTransportUpdate_beforeCallback K E w).player.mPlay.mFramesSincePositionUpdate
          = 0 := by
      unfold audioPlayerTransportUpdate_beforeCallback
      rw [(audioPlayerTransportUpdate_seek_frame K E _ _ _).1,
        audioPlayerTransportUpdate_seek_mPlay, hL]
      exact ⟨rfl, rfl, rfl⟩
    have hfresh := SndFile_Callback_fresh K E _ hmid.2.2
    unfold audioPlayerTransportUpdate
    rw [if_pos hopen]
    dsimp only
    split_ifs
    · refine ⟨?_, ?_, hfresh.1, ?_⟩
      · rw [SndFile_Callback_mSeek]; exact hmid.1
      · rw [SndFile_Callback_mFramesSinceLastSeek]; exact hmid.2.1
      · rw [List.filter_append, List.filter_append,
          (audioPlayerTransportUpdate_seek_frame K E _ _ _).2]
        exact hfresh.2
    · refine ⟨hmid.1, hmid.2.1, hmid.2.2, ?_⟩
      rw [List.filter_append, (audioPlayerTransportUpdate_seek_frame K E _ _ _).2]
      rfl
  · intro hno
    have hmid := audioPlayerTransportUpdate_beforeCallback_none K E w hno
    constructor
    · rw [hmid]
      exact ⟨rfl, rfl, rfl, rfl, rfl⟩
    · rw [hmid]
      unfold audioPlayerTransportUpdate
      rw [if_pos hopen, audioPlayerTransportUpdate_locked_none K w.player hno]
      unfold audioPlayerTransportUpdate_seek
      dsimp only
      simp only [ne_eq, not_true_eq_false, if_false, List.append_nil]
      split_ifs
      · exact Or.inr rfl
      · exact Or.inl rfl

/-- Witness for C16: a seek to 500 ms requested while playing with a milestone
overdue; after the update the counters are zero and no callback was invoked. -/
theorem audioPlayerTransportUpdate_seek_resets_witness :
    (audioPlayerTransportUpdate stdConsts (fileEnv 100000 0)
      (requestSeek 500 ⟨milestonePlayer stdConsts 44100000 10 35, 0⟩)).1.player.mPlay.mFramesSincePositionUpdate
        = 0 ∧
    (audioPlayerTransportUpdate stdConsts (fileEnv 100000 0)
      (requestSeek 500 ⟨milestonePlayer stdConsts 44100000 10 35, 0⟩)).2.filter
        Event.isCallback = [] :=
  have h := (audioPlayerTransportUpdate_seek_resets stdConsts (fileEnv 100000 0)
    (requestSeek 500 ⟨milestonePlayer stdConsts 44100000 10 35, 0⟩) (by decide)).1 (by decide)
  ⟨h.2.2.1, h.2.2.2⟩

/-! ### The seek offset -/

/-- The product of a 32-bit unsigned value and a C `int` is not changed by the
conversion to `long long`. -/
theorem wrapInt64_mul (m : Nat) (sr : Int) (hm : m < 2 ^ 32) (hlo : -2 ^ 31 ≤ sr)
    (hhi : sr < 2 ^ 31) : wrapInt64 ((m : Int) * sr) = (m : Int) * sr := by
  have h0 : (0 : Int) ≤ (m : Int) := Int.ofNat_nonneg m
  have h1 : (m : Int) < 2 ^ 32 := by exact_mod_cast hm
  unfold wrapInt64
  rw [Int.emod_eq_of_lt]
  · ring
  · nlinarith [mul_nonneg h0 (by linarith : (0 : Int) ≤ sr + 2 ^ 31)]
  · nlinarith [mul_nonneg h0 (by linarith : (0 : Int) ≤ 2 ^ 31 - sr)]

/-- C17: with an open decoder session and a pending seek target `pos` (32-bit,
the sentinel being `0xFFFFFFFF`), for every duration and every file sample rate
(a C `int`), `audioPlayerTransportUpdate` calls `sf_seek` with `SEEK_SET` and the
offset `min pos mDuration * samplerate / 1000`, the product computed in 64-bit
arithmetic without wrap-around and the quotient truncated, which for a sample
rate that is not negative is the floor; the call comes after the queue has been
cleared and before `mEOF` is cleared and `mWhich` reset to 0, and the decoder
is in the repositioned state when the refill starts. -/
theorem audioPlayerTransportUpdate_seek_offset {D : Type} (K : Consts) (E : Env D)
    (w : World D) (hK : K.SL_TIME_UNKNOWN = 4294967295)
    (hopen : NULL ≠ w.player.mSndFile.mSNDFILE)
    (h32 : w.player.mSeek.mPos < 2 ^ 32)
    (hpend : w.player.mSeek.mPos ≠ K.SL_TIME_UNKNOWN)
    (hlo : -2 ^ 31 ≤ w.player.mSndFile.mSfInfo.samplerate)
    (hhi : w.player.mSndFile.mSfInfo.samplerate < 2 ^ 31) :
    (wrapInt64 ((min w.player.mSeek.mPos w.player.mPlay.mDuration : Nat) *
        w.player.mSndFile.mSfInfo.samplerate) =
      (min w.player.mSeek.mPos w.player.mPlay.mDuration : Nat) *
        w.player.mSndFile.mSfInfo.samplerate) ∧
    (seekFrames (min w.player.mSeek.mPos w.player.mPlay.mDuration)
        w.player.mSndFile.mSfInfo.samplerate =
      Int.tdiv ((min w.player.mSeek.mPos w.player.mPlay.mDuration : Nat) *
        w.player.mSndFile.mSfInfo.samplerate) 1000) ∧
    (0 ≤ w.player.mSndFile.mSfInfo.samplerate →
      seekFrames (min w.player.mSeek.mPos w.player.mPlay.mDuration)
          w.player.mSndFile.mSfInfo.samplerate =
        ((min w.player.mSeek.mPos w.player.mPlay.mDuration : Nat) *
          w.player.mSndFile.mSfInfo.samplerate) / 1000) ∧
    (audioPlayerTransportUpdate K E w).2 =
      [Event.object_lock_exclusive, Event.object_unlock_exclusive,
       Event.IBufferQueue_Clear, Event.pthread_mutex_lock,
       Event.sf_seek w.player.mSndFile.mSNDFILE
         (seekFrames (min w.player.mSeek.mPos w.player.mPlay.mDuration)
           w.player.mSndFile.mSfInfo.samplerate) K.SEEK_SET,
       Event.write_mEOF false, Event.write_mWhich 0, Event.pthread_mutex_unlock] ++
      (SndFile_Callback K E (audioPlayerTransportUpdate_beforeCallback K E w)).2 ∧
    (audioPlayerTransportUpdate_beforeCallback K E w).decoder =
      E.sf_seek w.player.mSndFile.mSNDFILE w.decoder
        (seekFrames (min w.player.mSeek.mPos w.player.mPlay.mDuration)
          w.player.mSndFile.mSfInfo.samplerate) K.SEEK_SET := by
  have hm : min w.player.mSeek.mPos w.player.mPlay.mDuration < 2 ^ 32 :=
    Nat.lt_of_le_of_lt (Nat.min_le_left _ _) h32
  have hwrap := wrapInt64_mul _ _ hm hlo hhi
  have htrim := trimmed_ne_unknown K hK _ w.player.mPlay.mDuration h32 hpend
  refine ⟨hwrap, ?_, fun hsr => ?_, ?_, ?_⟩
  · unfold seekFrames
    rw [hwrap]
  · unfold seekFrames
    rw [hwrap]
    exact Int.tdiv_eq_ediv (mul_nonneg (Int.ofNat_nonneg _) hsr) (by decide)
  · rw [audioPlayerTransportUpdate_pending K E w hopen hpend htrim]
  · rw [audioPlayerTransportUpdate_beforeCallback_pending K E w hpend htrim]

/-- Witness for C17: a seek to 500 ms in a 44.1 kHz file goes to sample offset
22050. -/
theorem audioPlayerTransportUpdate_seek_offset_witness :
    seekFrames (min (seekingPlayer stdConsts false 3 500).mSeek.mPos
      (seekingPlayer stdConsts false 3 500).mPlay.mDuration)
      (seekingPlayer stdConsts false 3 500).mSndFile.mSfInfo.samplerate = 22050 ∧
    (audioPlayerTransportUpdate stdConsts (fileEnv 100000 0)
      ⟨seekingPlayer stdConsts false 3 500, 0⟩).2.filter Event.isSeek =
      [Event.sf_seek 1 22050 0] :=
  have h := audioPlayerTransportUpdate_seek_offset stdConsts (fileEnv 100000 0)
    ⟨seekingPlayer stdConsts false 3 500, 0⟩ rfl (by decide) (by decide) (by decide)
    (by decide) (by decide)
  ⟨(h.2.2.1 (by decide)).trans (by decide), by decide⟩

/-! ### The position computation -/

/-- No division by zero is evaluated: the block with failing division always
has a result, the one of `SndFile_Callback_position`. -/
theorem SndFile_Callback_position_checked_eq (K : Consts) (mPlay : IPlay) (rate : Nat) :
    SndFile_Callback_position_checked K mPlay rate =
      some (SndFile_Callback_position K mPlay rate) := by
  unfold SndFile_Callback_position_checked SndFile_Callback_position
  by_cases hrate : 0 ≠ rate
  · rw [if_pos hrate, if_pos hrate]
    unfold checkedDiv
    rw [if_neg (Ne.symm hrate)]
    dsimp only
    by_cases hc : 0 ≠ mPlay.mFrameUpdatePeriod ∧
        mPlay.mFramesSincePositionUpdate ≥ mPlay.mFrameUpdatePeriod ∧
        K.SL_PLAYEVENT_HEADATNEWPOS &&& mPlay.mEventFlags ≠ 0
    · rw [if_pos hc, if_pos hc]
      unfold checkedMod
      rw [if_neg (Ne.symm hc.1)]
      dsimp only
      split_ifs <;> rfl
    · rw [if_neg hc, if_neg hc]
  · rw [if_neg hrate, if_neg hrate]

/-- C18: in every playing cycle that is not at end of stream, when
`mSampleRateMilliHz != 0` the position `mPosition` is set to
`mFramesSinceLastSeek * 1000000 / mSampleRateMilliHz` truncated to 32 bits, plus
`mLastSeekPosition`, modulo `2 ^ 32`; when `mSampleRateMilliHz == 0` the
position is left unchanged; and for every sample rate no division by zero is
evaluated (the block with failing division and remainder always has a
result). -/
theorem SndFile_Callback_position_value {D : Type} (K : Consts) (E : Env D) (w : World D)
    (hplay : w.player.mPlay.mState = K.SL_PLAYSTATE_PLAYING)
    (heof : w.player.mSndFile.mEOF = false) :
    (w.player.mSampleRateMilliHz ≠ 0 →
      (SndFile_Callback K E w).1.player.mPlay.mPosition =
        (w.player.mPlay.mFramesSinceLastSeek * 1000000 / w.player.mSampleRateMilliHz % 2 ^ 32 +
          w.player.mPlay.mLastSeekPosition) % 2 ^ 32) ∧
    (w.player.mSampleRateMilliHz = 0 →
      (SndFile_Callback K E w).1.player.mPlay.mPosition = w.player.mPlay.mPosition) ∧
    (SndFile_Callback_position_checked K w.player.mPlay w.player.mSampleRateMilliHz =
      some (SndFile_Callback_position K w.player.mPlay w.player.mSampleRateMilliHz) ∧
     (SndFile_Callback K E w).1.player.mPlay.mPosition =
      (SndFile_Callback_position K w.player.mPlay w.player.mSampleRateMilliHz).1.mPosition) := by
  have hP : (SndFile_Callback K E w).1.player.mPlay.mPosition =
      (SndFile_Callback_position K w.player.mPlay w.player.mSampleRateMilliHz).1.mPosition := by
    rw [SndFile_Callback_mPlay K E w hplay heof]
    split_ifs <;> rfl
  refine ⟨fun hrate => ?_, fun hrate => ?_, SndFile_Callback_position_checked_eq K _ _, hP⟩
  · rw [SndFile_Callback_mPosition K E w hplay heof hrate]
    rfl
  · rw [hP, hrate, SndFile_Callback_position_zero_rate]

/-- Witness for C18: 44100 frames after a seek to 1000 ms, at 44.1 kHz, the
position is 2000 ms. -/
theorem SndFile_Callback_position_value_witness :
    (SndFile_Callback stdConsts (fileEnv 100000 0)
      ⟨positionPlayer stdConsts 1000 0 44100, 0⟩).1.player.mPlay.mPosition = 2000 :=
  ((SndFile_Callback_position_value stdConsts (fileEnv 100000 0)
    ⟨positionPlayer stdConsts 1000 0 44100, 0⟩ rfl rfl).1 (by decide)).trans (by decide)

/-! ### Locks -/

/-- C19: in every execution of `SndFile_Callback`, from a state with no lock
held: the session mutex is not held when the lock of the player is taken, when
a buffer is submitted to the queue or when the application callback is invoked;
the callback is invoked with neither lock held, and at most once; locks are
taken when free and released when held; and when the step returns no lock is
held, on every path. -/
theorem SndFile_Callback_lock_discipline {D : Type} (K : Consts) (E : Env D) (w : World D) :
    lockDiscipline ⟨0, 0⟩ (SndFile_Callback K E w).2 = true ∧
    locksAfter ⟨0, 0⟩ (SndFile_Callback K E w).2 = ⟨0, 0⟩ ∧
    ((SndFile_Callback K E w).2.filter Event.isCallback).length ≤ 1 := by
  unfold SndFile_Callback
  dsimp only
  split_ifs <;>
    simp [lockDiscipline, locksAfter, Locks.after, Event.inOrder, Event.isCallback]

/-- C20: the code at the failing input, a playing player, not at end of stream,
over an empty file.  The exhaustion branch writes `mEOF` after the session mutex
has been released, holding the lock of the player only: it is the one write to
`mWhich` or `mEOF` made without the mutex.  The writes of a cycle that decodes
frames and the writes of a seek in `audioPlayerTransportUpdate` are all made
with the mutex held. -/
theorem SndFile_Callback_exhaustion_write_unguarded :
    (SndFile_Callback stdConsts (fileEnv 0 0) ⟨examplePlayer stdConsts 1 0 false 0, 0⟩).2 =
      [Event.object_lock_peek, Event.object_unlock_peek, Event.pthread_mutex_lock,
       Event.write_mWhich 1, Event.sf_read_short 1 0 512, Event.pthread_mutex_unlock,
       Event.object_lock_exclusive, Event.write_mEOF true,
       Event.object_unlock_exclusive_attributes 2] ∧
    unguardedWrites ⟨0, 0⟩
      (SndFile_Callback stdConsts (fileEnv 0 0) ⟨examplePlayer stdConsts 1 0 false 0, 0⟩).2 =
      [Event.write_mEOF true] ∧
    locksAfter ⟨0, 0⟩
      [Event.object_lock_peek, Event.object_unlock_peek, Event.pthread_mutex_lock,
       Event.write_mWhich 1, Event.sf_read_short 1 0 512, Event.pthread_mutex_unlock,
       Event.object_lock_exclusive] = ⟨0, 1⟩ ∧
    unguardedWrites ⟨0, 0⟩
      (SndFile_Callback stdConsts (fileEnv 100000 0)
        ⟨examplePlayer stdConsts 1 1 false 0, 0⟩).2 = [] ∧
    unguardedWrites ⟨0, 0⟩
      (audioPlayerTransportUpdate stdConsts (fileEnv 100000 0)
        ⟨seekingPlayer stdConsts true 2 500, 0⟩).2 = [] ∧
    (audioPlayerTransportUpdate stdConsts (fileEnv 100000 0)
        ⟨seekingPlayer stdConsts true 2 500, 0⟩).2.filter Event.isSessionWrite =
      [Event.write_mEOF false, Event.write_mWhich 0] := by
  decide

end OpenSLES
